import Mathlib

/-!
# Verification of the MTFS budget model core

Shallow embedding of the model library of the MTFS-Budget-Sim repository
(the 5-year projection engine, the derived sensitivity analysis, the
bisection break-even solver, the seeded Monte-Carlo stress test, the
configuration validator and the multi-sheet workbook serializer), together
with theorems settling the frozen claims about it.

Modelling conventions:
* JavaScript numbers are modelled as exact rationals (`ℚ`); the source's
  arithmetic is plain `+ - * /` and `Math.pow` with natural exponents, and
  the properties under scrutiny are algebraic identities of that arithmetic.
* The 32-bit pseudo-random generator (`mulberry32`) is modelled exactly:
  every intermediate value is a bit pattern in `Nat` reduced `% 2^32`,
  mirroring JavaScript's `ToInt32`/`ToUint32` coercions and `Math.imul`.
* The transcendental part of the Box-Muller normal variate,
  `u v ↦ sqrt(-2·ln u) · cos(2·π·v)`, is not rational-valued; the stress
  test is therefore parametrised by an arbitrary transform
  `φ : ℚ → ℚ → ℚ` standing for that map.  Every claim about the stress
  test (determinism, draw accounting, percentile extraction, empty-run
  behaviour) is proved for all `φ`, hence in particular for the actual
  transform.
* Dynamic JavaScript values reaching the configuration validator are
  modelled by the inductive `JValue`, with JavaScript truthiness and
  `typeof` semantics made explicit.
* The `fflate` zip packer is modelled as the ordered list of named parts
  handed to it; the byte-level zip container is outside the model.
* The service-split tables of the assumptions record are read only by the
  service-breakdown view, which no claim concerns; they are omitted from
  the embedded `Assumptions` record.
-/

namespace MTFSBudget

/-- The four percentage drivers (source: `baseline` / scenario presets). -/
structure YearInputs where
  councilTaxIncrease : ℚ
  payAward : ℚ
  generalInflation : ℚ
  socialCareGrowth : ℚ
deriving DecidableEq

/-- One per-year override record (source: `defaultOverrides` entries). -/
structure Override where
  enabled : Bool
  councilTaxIncrease : Option ℚ
  payAward : Option ℚ
  generalInflation : Option ℚ
  socialCareGrowth : Option ℚ
deriving DecidableEq

/-- Funding shock (source: `defaultFundingShock`). -/
structure FundingShock where
  enabled : Bool
  yearIndex : Nat
  amount : ℚ
deriving DecidableEq

/-- Debt / capital financing block (source: `defaultDebt`). -/
structure Debt where
  debtPrincipal : ℚ
  debtInterestRate : ℚ
  annualCapitalFinancing : ℚ
deriving DecidableEq

/-- One savings-pipeline item (source: `defaultSavingsPipeline` entries);
`confidence` is optional because the code reads `item.confidence ?? 1`. -/
structure PipelineItem where
  name : String
  amount : ℚ
  startYear : Nat
  recurring : Bool
  confidence : Option ℚ
deriving DecidableEq

/-- Growth percentages of the three non-tax funding lines. -/
structure FundingGrowth where
  businessRates : ℚ
  revenueSupportGrant : ℚ
  otherGrants : ℚ
deriving DecidableEq

/-- Core assumptions (source: `initialState`, minus the service-split
tables which only the unclaimed breakdown view reads). -/
structure Assumptions where
  baseYear : Int
  previousYearBase : ℚ
  plannedSavings : ℚ
  demandPressures : ℚ
  currentReserves : ℚ
  taxBase : ℚ
  averageBandD : ℚ
  businessRates : ℚ
  revenueSupportGrant : ℚ
  otherGrants : ℚ
  fundingGrowth : FundingGrowth
deriving DecidableEq

/-- Stress-test parameters (source: `defaultStress`). -/
structure Stress where
  seed : Nat
  simulations : Nat
  inflationSigma : ℚ
  demandSigma : ℚ
  paySigma : ℚ
  ctSigma : ℚ
deriving DecidableEq

/-- One projection row (source: the object pushed in `computeProjections`). -/
structure Row where
  year : String
  netBudgetRequirement : ℚ
  totalFunding : ℚ
  annualGap : ℚ
  reservesEnd : ℚ
  payPriceInflation : ℚ
  demandPressures : ℚ
  plannedSavings : ℚ
  pipelineSavings : ℚ
  councilTaxRevenue : ℚ
  businessRates : ℚ
  revenueSupportGrant : ℚ
  otherGrants : ℚ
  debtCost : ℚ
  shockAmount : ℚ
deriving DecidableEq

/-- Source `resolveInputsForYear`: an enabled override replaces each driver
field when the override value is non-null, else falls back to the baseline
driver; a missing or disabled override leaves the baseline unchanged. -/
def resolveInputsForYear (inputs : YearInputs) (overrides : List Override)
    (index : Nat) : YearInputs :=
  match overrides.get? index with
  | none => inputs
  | some o =>
    if o.enabled then
      { councilTaxIncrease := o.councilTaxIncrease.getD inputs.councilTaxIncrease
        payAward := o.payAward.getD inputs.payAward
        generalInflation := o.generalInflation.getD inputs.generalInflation
        socialCareGrowth := o.socialCareGrowth.getD inputs.socialCareGrowth }
    else inputs

/-- Source `calcPipelineSavings`: fold over the pipeline skipping items
that have not started (or are one-off and not in their exact year). -/
def calcPipelineSavings (pipeline : List PipelineItem) (yearIndex : Nat) : ℚ :=
  pipeline.foldl
    (fun sum item =>
      if item.startYear > yearIndex + 1 then sum
      else if item.recurring = false ∧ item.startYear ≠ yearIndex + 1 then sum
      else sum + item.amount * item.confidence.getD 1)
    0

/-- Per-item contribution of the pipeline for a projection year, as the
specification words it: `amount × confidence` when the item is recurring
and started, or one-off and exactly in its start year; otherwise `0`. -/
def pipelineContribution (yearIndex : Nat) (item : PipelineItem) : ℚ :=
  if (item.recurring = true ∧ item.startYear ≤ yearIndex + 1) ∨
      (item.recurring = false ∧ item.startYear = yearIndex + 1) then
    item.amount * item.confidence.getD 1
  else 0

/-- Source `computeProjections`, debt-cost line:
`(debt?.debtPrincipal ?? 0) * ((debt?.debtInterestRate ?? 0) / 100) +
 (debt?.annualCapitalFinancing ?? 0)`. -/
def debtCostOf (debt : Option Debt) : ℚ :=
  (debt.elim 0 Debt.debtPrincipal) * ((debt.elim 0 Debt.debtInterestRate) / 100) +
    debt.elim 0 Debt.annualCapitalFinancing

/-- Pay and price inflation: `previousBase × (payAward + generalInflation) / 100`. -/
def payPriceInflationOf (previousBase : ℚ) (yi : YearInputs) : ℚ :=
  previousBase * ((yi.payAward + yi.generalInflation) / 100)

/-- Demand pressures: `assumptions.demandPressures × (1 + socialCareGrowth/100)^i`. -/
def demandPressuresOf (asm : Assumptions) (yi : YearInputs) (i : Nat) : ℚ :=
  asm.demandPressures * (1 + yi.socialCareGrowth / 100) ^ i

/-- Planned savings: `assumptions.plannedSavings + pipelineSavings`. -/
def plannedSavingsOf (asm : Assumptions) (pipeline : List PipelineItem) (i : Nat) : ℚ :=
  asm.plannedSavings + calcPipelineSavings pipeline i

/-- Net budget requirement of year `i` given the carried `previousBase`. -/
def nbrOf (asm : Assumptions) (debt : Option Debt) (pipeline : List PipelineItem)
    (yi : YearInputs) (i : Nat) (previousBase : ℚ) : ℚ :=
  previousBase + payPriceInflationOf previousBase yi + demandPressuresOf asm yi i +
    debtCostOf debt - plannedSavingsOf asm pipeline i

/-- Council tax revenue: `taxBase × averageBandD × (1 + councilTaxIncrease/100)^(i+1)`. -/
def councilTaxRevenueOf (asm : Assumptions) (yi : YearInputs) (i : Nat) : ℚ :=
  asm.taxBase * asm.averageBandD * (1 + yi.councilTaxIncrease / 100) ^ (i + 1)

/-- Business rates line: `businessRates × (1 + fundingGrowth.businessRates/100)^i`. -/
def businessRatesOf (asm : Assumptions) (i : Nat) : ℚ :=
  asm.businessRates * (1 + asm.fundingGrowth.businessRates / 100) ^ i

/-- Revenue support grant line: `revenueSupportGrant × (1 + fundingGrowth.revenueSupportGrant/100)^i`. -/
def revenueSupportGrantOf (asm : Assumptions) (i : Nat) : ℚ :=
  asm.revenueSupportGrant * (1 + asm.fundingGrowth.revenueSupportGrant / 100) ^ i

/-- Other grants line: `otherGrants × (1 + fundingGrowth.otherGrants/100)^i`. -/
def otherGrantsOf (asm : Assumptions) (i : Nat) : ℚ :=
  asm.otherGrants * (1 + asm.fundingGrowth.otherGrants / 100) ^ i

/-- Funding before the shock: council tax plus the three grant lines. -/
def baseFundingOf (asm : Assumptions) (yi : YearInputs) (i : Nat) : ℚ :=
  councilTaxRevenueOf asm yi i + businessRatesOf asm i +
    revenueSupportGrantOf asm i + otherGrantsOf asm i

/-- Shock amount: `fundingShock?.enabled && fundingShock.yearIndex === i ? fundingShock.amount : 0`. -/
def shockAt (fs : FundingShock) (i : Nat) : ℚ :=
  if fs.enabled = true ∧ fs.yearIndex = i then fs.amount else 0

/-- The year label pushed by the source: `` `Y${i+1} (${year})` `` with
`year = baseYear + i + 1`. -/
def yearLabel (asm : Assumptions) (i : Nat) : String :=
  "Y" ++ toString (i + 1) ++ " (" ++ toString (asm.baseYear + (i : Int) + 1) ++ ")"

/-- The row pushed by one iteration of the `computeProjections` loop, given
the carried `previousBase` and the cumulative gap *before* this year. -/
def buildRow (inputs : YearInputs) (overrides : List Override) (fundingShock : FundingShock)
    (debt : Option Debt) (asm : Assumptions) (pipeline : List PipelineItem)
    (i : Nat) (previousBase cumulativeGap : ℚ) : Row :=
  let yi := resolveInputsForYear inputs overrides i
  let nbr := nbrOf asm debt pipeline yi i previousBase
  let gap := nbr - (baseFundingOf asm yi i + shockAt fundingShock i)
  { year := yearLabel asm i
    netBudgetRequirement := nbr
    totalFunding := baseFundingOf asm yi i + shockAt fundingShock i
    annualGap := gap
    reservesEnd := asm.currentReserves - (cumulativeGap + gap)
    payPriceInflation := payPriceInflationOf previousBase yi
    demandPressures := demandPressuresOf asm yi i
    plannedSavings := plannedSavingsOf asm pipeline i
    pipelineSavings := calcPipelineSavings pipeline i
    councilTaxRevenue := councilTaxRevenueOf asm yi i
    businessRates := businessRatesOf asm i
    revenueSupportGrant := revenueSupportGrantOf asm i
    otherGrants := otherGrantsOf asm i
    debtCost := debtCostOf debt
    shockAmount := shockAt fundingShock i }

/-- The `for` loop of `computeProjections`: `n` remaining iterations,
current year index `i`, carried `previousBase` and `cumulativeGap`. -/
def computeProjectionsAux (inputs : YearInputs) (overrides : List Override)
    (fundingShock : FundingShock) (debt : Option Debt) (asm : Assumptions)
    (pipeline : List PipelineItem) : Nat → Nat → ℚ → ℚ → List Row
  | 0, _, _, _ => []
  | n + 1, i, previousBase, cumulativeGap =>
    let row := buildRow inputs overrides fundingShock debt asm pipeline i
      previousBase cumulativeGap
    row :: computeProjectionsAux inputs overrides fundingShock debt asm pipeline
      n (i + 1) row.netBudgetRequirement (cumulativeGap + row.annualGap)

/-- Source `computeProjections`: the fixed 5-year horizon starting from
`assumptions.previousYearBase` with zero cumulative gap. -/
def computeProjections (inputs : YearInputs) (overrides : List Override)
    (fundingShock : FundingShock) (debt : Option Debt) (asm : Assumptions)
    (pipeline : List PipelineItem) : List Row :=
  computeProjectionsAux inputs overrides fundingShock debt asm pipeline
    5 0 asm.previousYearBase 0

/-- Closed form of the carried `previousBase` before year `i` (the model
rolls the net budget requirement forward; funding and shocks never feed
into it). -/
def prevBaseAt (inputs : YearInputs) (overrides : List Override) (debt : Option Debt)
    (asm : Assumptions) (pipeline : List PipelineItem) : Nat → ℚ
  | 0 => asm.previousYearBase
  | i + 1 =>
    nbrOf asm debt pipeline (resolveInputsForYear inputs overrides i) i
      (prevBaseAt inputs overrides debt asm pipeline i)

/-- Closed form of year `i`'s annual gap. -/
def gapAt (inputs : YearInputs) (overrides : List Override) (fundingShock : FundingShock)
    (debt : Option Debt) (asm : Assumptions) (pipeline : List PipelineItem) (i : Nat) : ℚ :=
  nbrOf asm debt pipeline (resolveInputsForYear inputs overrides i) i
      (prevBaseAt inputs overrides debt asm pipeline i) -
    (baseFundingOf asm (resolveInputsForYear inputs overrides i) i + shockAt fundingShock i)

/-- Closed form of the cumulative gap before year `i`. -/
def cumGapAt (inputs : YearInputs) (overrides : List Override) (fundingShock : FundingShock)
    (debt : Option Debt) (asm : Assumptions) (pipeline : List PipelineItem) : Nat → ℚ
  | 0 => 0
  | i + 1 =>
    cumGapAt inputs overrides fundingShock debt asm pipeline i +
      gapAt inputs overrides fundingShock debt asm pipeline i

section Projection

variable (inputs : YearInputs) (overrides : List Override) (fundingShock : FundingShock)
  (debt : Option Debt) (asm : Assumptions) (pipeline : List PipelineItem)

lemma computeProjectionsAux_eq :
    ∀ (n i : Nat),
      computeProjectionsAux inputs overrides fundingShock debt asm pipeline n i
        (prevBaseAt inputs overrides debt asm pipeline i)
        (cumGapAt inputs overrides fundingShock debt asm pipeline i) =
      (List.range n).map (fun j =>
        buildRow inputs overrides fundingShock debt asm pipeline (i + j)
          (prevBaseAt inputs overrides debt asm pipeline (i + j))
          (cumGapAt inputs overrides fundingShock debt asm pipeline (i + j))) := by
  intro n
  induction n with
  | zero => intro i; simp [computeProjectionsAux]
  | succ n ih =>
    intro i
    have hnbr :
        (buildRow inputs overrides fundingShock debt asm pipeline i
            (prevBaseAt inputs overrides debt asm pipeline i)
            (cumGapAt inputs overrides fundingShock debt asm pipeline i)).netBudgetRequirement =
          prevBaseAt inputs overrides debt asm pipeline (i + 1) := rfl
    have hgap :
        cumGapAt inputs overrides fundingShock debt asm pipeline i +
            (buildRow inputs overrides fundingShock debt asm pipeline i
              (prevBaseAt inputs overrides debt asm pipeline i)
              (cumGapAt inputs overrides fundingShock debt asm pipeline i)).annualGap =
          cumGapAt inputs overrides fundingShock debt asm pipeline (i + 1) := rfl
    simp only [computeProjectionsAux]
    rw [hnbr, hgap, ih (i + 1), List.range_succ_eq_map, List.map_cons, List.map_map]
    refine congrArg₂ List.cons (by simp) ?_
    refine List.map_congr_left fun j _ => ?_
    have e : i + (j + 1) = i + 1 + j := by omega
    simp only [Function.comp_apply]
    rw [e]

lemma computeProjections_eq :
    computeProjections inputs overrides fundingShock debt asm pipeline =
      (List.range 5).map (fun j =>
        buildRow inputs overrides fundingShock debt asm pipeline j
          (prevBaseAt inputs overrides debt asm pipeline j)
          (cumGapAt inputs overrides fundingShock debt asm pipeline j)) := by
  have h := computeProjectionsAux_eq inputs overrides fundingShock debt asm pipeline 5 0
  have h0 : computeProjections inputs overrides fundingShock debt asm pipeline =
      computeProjectionsAux inputs overrides fundingShock debt asm pipeline 5 0
        (prevBaseAt inputs overrides debt asm pipeline 0)
        (cumGapAt inputs overrides fundingShock debt asm pipeline 0) := rfl
  rw [h0, h]
  exact List.map_congr_left fun j _ => by rw [Nat.zero_add]

lemma computeProjections_length :
    (computeProjections inputs overrides fundingShock debt asm pipeline).length = 5 := by
  rw [computeProjections_eq]; simp

lemma computeProjections_get? (j : Nat) :
    (computeProjections inputs overrides fundingShock debt asm pipeline).get? j =
      if j < 5 then
        some (buildRow inputs overrides fundingShock debt asm pipeline j
          (prevBaseAt inputs overrides debt asm pipeline j)
          (cumGapAt inputs overrides fundingShock debt asm pipeline j))
      else none := by
  rw [computeProjections_eq]
  rcases lt_or_ge j 5 with hj | hj
  · simp [List.get?_map, List.get?_range, hj]
  · simp only [if_neg (not_lt.mpr hj)]
    rw [List.get?_eq_none]
    simpa using hj

lemma sum_range_annualGap :
    ∀ m : Nat,
      ((List.range m).map (fun j =>
        (buildRow inputs overrides fundingShock debt asm pipeline j
          (prevBaseAt inputs overrides debt asm pipeline j)
          (cumGapAt inputs overrides fundingShock debt asm pipeline j)).annualGap)).sum =
      cumGapAt inputs overrides fundingShock debt asm pipeline m := by
  intro m
  induction m with
  | zero => simp [cumGapAt]
  | succ m ih =>
    rw [List.range_succ, List.map_append, List.sum_append, ih]
    show cumGapAt inputs overrides fundingShock debt asm pipeline m +
      ((gapAt inputs overrides fundingShock debt asm pipeline m) + 0) = _
    rw [add_zero]
    rfl

lemma sum_take_annualGap (m : Nat) (hm : m ≤ 5) :
    (((computeProjections inputs overrides fundingShock debt asm pipeline).take m).map
        Row.annualGap).sum =
      cumGapAt inputs overrides fundingShock debt asm pipeline m := by
  rw [computeProjections_eq, ← List.map_take, List.take_range, min_eq_left hm,
    List.map_map]
  exact sum_range_annualGap inputs overrides fundingShock debt asm pipeline m

/-- C1: every row's `reservesEnd` is `currentReserves` minus the running
cumulative sum of `annualGap` over the rows up to and including it; in
particular the fifth row's `reservesEnd` is `currentReserves` minus the sum
of `annualGap` over all five rows. -/
theorem c1 :
    (∀ j, j < 5 →
      ((computeProjections inputs overrides fundingShock debt asm pipeline).get? j).map
          Row.reservesEnd =
        some (asm.currentReserves -
          (((computeProjections inputs overrides fundingShock debt asm pipeline).take
              (j + 1)).map Row.annualGap).sum)) ∧
    ((computeProjections inputs overrides fundingShock debt asm pipeline).get? 4).map
        Row.reservesEnd =
      some (asm.currentReserves -
        ((computeProjections inputs overrides fundingShock debt asm pipeline).map
            Row.annualGap).sum) := by
  have key : ∀ j, j < 5 →
      ((computeProjections inputs overrides fundingShock debt asm pipeline).get? j).map
          Row.reservesEnd =
        some (asm.currentReserves -
          (((computeProjections inputs overrides fundingShock debt asm pipeline).take
              (j + 1)).map Row.annualGap).sum) := by
    intro j hj
    rw [computeProjections_get?, if_pos hj,
      sum_take_annualGap inputs overrides fundingShock debt asm pipeline (j + 1)
        (by omega)]
    simp only [Option.map_some']
    rfl
  refine ⟨key, ?_⟩
  have h4 := key 4 (by omega)
  have htake : (computeProjections inputs overrides fundingShock debt asm pipeline).take 5 =
      computeProjections inputs overrides fundingShock debt asm pipeline := by
    rw [← computeProjections_length inputs overrides fundingShock debt asm pipeline]
    exact List.take_length _
  rwa [htake] at h4

end Projection

/-- All-zero driver set, used to instantiate universally quantified theorems. -/
def zeroInputs : YearInputs := ⟨0, 0, 0, 0⟩

/-- All-zero assumptions record, used to instantiate universally quantified
theorems. -/
def zeroAssumptions : Assumptions := ⟨0, 0, 0, 0, 0, 0, 0, 0, 0, 0, ⟨0, 0, 0⟩⟩

/-- A disabled funding shock. -/
def offShock : FundingShock := ⟨false, 0, 0⟩

/-- Witness for C1 at a concrete scenario (row index 2). -/
theorem c1_witness :
    ((computeProjections zeroInputs [] offShock none zeroAssumptions []).get? 2).map
        Row.reservesEnd =
      some (zeroAssumptions.currentReserves -
        (((computeProjections zeroInputs [] offShock none zeroAssumptions []).take 3).map
            Row.annualGap).sum) :=
  (c1 zeroInputs [] offShock none zeroAssumptions []).1 2 (by decide)

attribute [ext] Row

section ShockFrame

variable (inputs : YearInputs) (overrides : List Override)
  (debt : Option Debt) (asm : Assumptions) (pipeline : List PipelineItem)

lemma shockAt_on (k : Nat) (a : ℚ) (i : Nat) :
    shockAt ⟨true, k, a⟩ i = if k = i then a else 0 := by
  simp [shockAt]

lemma shockAt_off (k : Nat) (a : ℚ) (i : Nat) :
    shockAt ⟨false, k, a⟩ i = 0 := by
  simp [shockAt]

lemma gapAt_on_off (k : Nat) (a : ℚ) (i : Nat) :
    gapAt inputs overrides ⟨true, k, a⟩ debt asm pipeline i =
      gapAt inputs overrides ⟨false, k, a⟩ debt asm pipeline i -
        (if k = i then a else 0) := by
  unfold gapAt
  rw [shockAt_on, shockAt_off]
  ring

lemma cumGapAt_on_off (k : Nat) (a : ℚ) :
    ∀ j, cumGapAt inputs overrides ⟨true, k, a⟩ debt asm pipeline j =
      cumGapAt inputs overrides ⟨false, k, a⟩ debt asm pipeline j -
        (if k < j then a else 0) := by
  intro j
  induction j with
  | zero => simp [cumGapAt]
  | succ j ih =>
    simp only [cumGapAt]
    rw [ih, gapAt_on_off]
    rcases lt_trichotomy k j with h | h | h
    · rw [if_pos h, if_pos (by omega : k < j + 1), if_neg (by omega : ¬k = j)]
      ring
    · subst h
      rw [if_neg (by omega : ¬k < k), if_pos (by omega : k < k + 1), if_pos rfl]
      ring
    · rw [if_neg (by omega : ¬k < j), if_neg (by omega : ¬k < j + 1),
        if_neg (by omega : ¬k = j)]
      ring

lemma buildRow_shock_invariant (fs fs' : FundingShock) (i : Nat) (pb cg : ℚ)
    (h : shockAt fs i = shockAt fs' i) :
    buildRow inputs overrides fs debt asm pipeline i pb cg =
      buildRow inputs overrides fs' debt asm pipeline i pb cg := by
  unfold buildRow
  rw [h]

lemma buildRow_on_eq (k : Nat) (a : ℚ) (i : Nat) (pb cg : ℚ) (h : k = i) :
    buildRow inputs overrides ⟨true, k, a⟩ debt asm pipeline i pb cg =
      { buildRow inputs overrides ⟨false, k, a⟩ debt asm pipeline i pb cg with
          totalFunding :=
            (buildRow inputs overrides ⟨false, k, a⟩ debt asm pipeline i pb cg).totalFunding + a
          annualGap :=
            (buildRow inputs overrides ⟨false, k, a⟩ debt asm pipeline i pb cg).annualGap - a
          reservesEnd :=
            (buildRow inputs overrides ⟨false, k, a⟩ debt asm pipeline i pb cg).reservesEnd + a
          shockAmount :=
            (buildRow inputs overrides ⟨false, k, a⟩ debt asm pipeline i pb cg).shockAmount + a } := by
  subst h
  apply Row.ext <;> simp [buildRow, shockAt] <;> ring

lemma buildRow_noshock_eq (k : Nat) (a : ℚ) (i : Nat) (pb cg cg' : ℚ) (h : k ≠ i) :
    buildRow inputs overrides ⟨true, k, a⟩ debt asm pipeline i pb cg =
      { buildRow inputs overrides ⟨false, k, a⟩ debt asm pipeline i pb cg' with
          reservesEnd :=
            (buildRow inputs overrides ⟨false, k, a⟩ debt asm pipeline i pb cg').reservesEnd +
              (cg' - cg) } := by
  apply Row.ext <;> simp [buildRow, shockAt, h] <;> ring

/-- C2 (amended): enabling the funding shock at year index `k` (versus the
identical inputs with the shock disabled) leaves every row before year `k`
unchanged; at year `k` it changes `totalFunding` and the recorded
`shockAmount` by exactly the shock amount, `annualGap` by minus the shock
amount and `reservesEnd` by plus the shock amount, all other fields being
unchanged; after year `k` only `reservesEnd` changes (by plus the shock
amount). -/
theorem c2_amended (inputs : YearInputs) (overrides : List Override)
    (debt : Option Debt) (asm : Assumptions) (pipeline : List PipelineItem)
    (k : Nat) (hk : k < 5) (a : ℚ) :
    (∀ j, j < k →
      (computeProjections inputs overrides ⟨true, k, a⟩ debt asm pipeline).get? j =
        (computeProjections inputs overrides ⟨false, k, a⟩ debt asm pipeline).get? j) ∧
    (((computeProjections inputs overrides ⟨true, k, a⟩ debt asm pipeline).get? k).map
          Row.totalFunding =
        ((computeProjections inputs overrides ⟨false, k, a⟩ debt asm pipeline).get? k).map
          (fun r => r.totalFunding + a) ∧
      ((computeProjections inputs overrides ⟨true, k, a⟩ debt asm pipeline).get? k).map
          Row.annualGap =
        ((computeProjections inputs overrides ⟨false, k, a⟩ debt asm pipeline).get? k).map
          (fun r => r.annualGap - a) ∧
      ((computeProjections inputs overrides ⟨true, k, a⟩ debt asm pipeline).get? k).map
          Row.reservesEnd =
        ((computeProjections inputs overrides ⟨false, k, a⟩ debt asm pipeline).get? k).map
          (fun r => r.reservesEnd + a) ∧
      ((computeProjections inputs overrides ⟨true, k, a⟩ debt asm pipeline).get? k).map
          Row.shockAmount =
        ((computeProjections inputs overrides ⟨false, k, a⟩ debt asm pipeline).get? k).map
          (fun r => r.shockAmount + a) ∧
      ((computeProjections inputs overrides ⟨true, k, a⟩ debt asm pipeline).get? k).map
          Row.year =
        ((computeProjections inputs overrides ⟨false, k, a⟩ debt asm pipeline).get? k).map
          Row.year ∧
      ((computeProjections inputs overrides ⟨true, k, a⟩ debt asm pipeline).get? k).map
          Row.netBudgetRequirement =
        ((computeProjections inputs overrides ⟨false, k, a⟩ debt asm pipeline).get? k).map
          Row.netBudgetRequirement ∧
      ((computeProjections inputs overrides ⟨true, k, a⟩ debt asm pipeline).get? k).map
          Row.payPriceInflation =
        ((computeProjections inputs overrides ⟨false, k, a⟩ debt asm pipeline).get? k).map
          Row.payPriceInflation ∧
      ((computeProjections inputs overrides ⟨true, k, a⟩ debt asm pipeline).get? k).map
          Row.demandPressures =
        ((computeProjections inputs overrides ⟨false, k, a⟩ debt asm pipeline).get? k).map
          Row.demandPressures ∧
      ((computeProjections inputs overrides ⟨true, k, a⟩ debt asm pipeline).get? k).map
          Row.plannedSavings =
        ((computeProjections inputs overrides ⟨false, k, a⟩ debt asm pipeline).get? k).map
          Row.plannedSavings ∧
      ((computeProjections inputs overrides ⟨true, k, a⟩ debt asm pipeline).get? k).map
          Row.pipelineSavings =
        ((computeProjections inputs overrides ⟨false, k, a⟩ debt asm pipeline).get? k).map
          Row.pipelineSavings ∧
      ((computeProjections inputs overrides ⟨true, k, a⟩ debt asm pipeline).get? k).map
          Row.councilTaxRevenue =
        ((computeProjections inputs overrides ⟨false, k, a⟩ debt asm pipeline).get? k).map
          Row.councilTaxRevenue ∧
      ((computeProjections inputs overrides ⟨true, k, a⟩ debt asm pipeline).get? k).map
          Row.businessRates =
        ((computeProjections inputs overrides ⟨false, k, a⟩ debt asm pipeline).get? k).map
          Row.businessRates ∧
      ((computeProjections inputs overrides ⟨true, k, a⟩ debt asm pipeline).get? k).map
          Row.revenueSupportGrant =
        ((computeProjections inputs overrides ⟨false, k, a⟩ debt asm pipeline).get? k).map
          Row.revenueSupportGrant ∧
      ((computeProjections inputs overrides ⟨true, k, a⟩ debt asm pipeline).get? k).map
          Row.otherGrants =
        ((computeProjections inputs overrides ⟨false, k, a⟩ debt asm pipeline).get? k).map
          Row.otherGrants ∧
      ((computeProjections inputs overrides ⟨true, k, a⟩ debt asm pipeline).get? k).map
          Row.debtCost =
        ((computeProjections inputs overrides ⟨false, k, a⟩ debt asm pipeline).get? k).map
          Row.debtCost) ∧
    (∀ j, k < j →
      ((computeProjections inputs overrides ⟨true, k, a⟩ debt asm pipeline).get? j).map
          Row.reservesEnd =
        ((computeProjections inputs overrides ⟨false, k, a⟩ debt asm pipeline).get? j).map
          (fun r => r.reservesEnd + a) ∧
      ((computeProjections inputs overrides ⟨true, k, a⟩ debt asm pipeline).get? j).map
          Row.totalFunding =
        ((computeProjections inputs overrides ⟨false, k, a⟩ debt asm pipeline).get? j).map
          Row.totalFunding ∧
      ((computeProjections inputs overrides ⟨true, k, a⟩ debt asm pipeline).get? j).map
          Row.annualGap =
        ((computeProjections inputs overrides ⟨false, k, a⟩ debt asm pipeline).get? j).map
          Row.annualGap ∧
      ((computeProjections inputs overrides ⟨true, k, a⟩ debt asm pipeline).get? j).map
          Row.shockAmount =
        ((computeProjections inputs overrides ⟨false, k, a⟩ debt asm pipeline).get? j).map
          Row.shockAmount ∧
      ((computeProjections inputs overrides ⟨true, k, a⟩ debt asm pipeline).get? j).map
          Row.year =
        ((computeProjections inputs overrides ⟨false, k, a⟩ debt asm pipeline).get? j).map
          Row.year ∧
      ((computeProjections inputs overrides ⟨true, k, a⟩ debt asm pipeline).get? j).map
          Row.netBudgetRequirement =
        ((computeProjections inputs overrides ⟨false, k, a⟩ debt asm pipeline).get? j).map
          Row.netBudgetRequirement ∧
      ((computeProjections inputs overrides ⟨true, k, a⟩ debt asm pipeline).get? j).map
          Row.payPriceInflation =
        ((computeProjections inputs overrides ⟨false, k, a⟩ debt asm pipeline).get? j).map
          Row.payPriceInflation ∧
      ((computeProjections inputs overrides ⟨true, k, a⟩ debt asm pipeline).get? j).map
          Row.demandPressures =
        ((computeProjections inputs overrides ⟨false, k, a⟩ debt asm pipeline).get? j).map
          Row.demandPressures ∧
      ((computeProjections inputs overrides ⟨true, k, a⟩ debt asm pipeline).get? j).map
          Row.plannedSavings =
        ((computeProjections inputs overrides ⟨false, k, a⟩ debt asm pipeline).get? j).map
          Row.plannedSavings ∧
      ((computeProjections inputs overrides ⟨true, k, a⟩ debt asm pipeline).get? j).map
          Row.pipelineSavings =
        ((computeProjections inputs overrides ⟨false, k, a⟩ debt asm pipeline).get? j).map
          Row.pipelineSavings ∧
      ((computeProjections inputs overrides ⟨true, k, a⟩ debt asm pipeline).get? j).map
          Row.councilTaxRevenue =
        ((computeProjections inputs overrides ⟨false, k, a⟩ debt asm pipeline).get? j).map
          Row.councilTaxRevenue ∧
      ((computeProjections inputs overrides ⟨true, k, a⟩ debt asm pipeline).get? j).map
          Row.businessRates =
        ((computeProjections inputs overrides ⟨false, k, a⟩ debt asm pipeline).get? j).map
          Row.businessRates ∧
      ((computeProjections inputs overrides ⟨true, k, a⟩ debt asm pipeline).get? j).map
          Row.revenueSupportGrant =
        ((computeProjections inputs overrides ⟨false, k, a⟩ debt asm pipeline).get? j).map
          Row.revenueSupportGrant ∧
      ((computeProjections inputs overrides ⟨true, k, a⟩ debt asm pipeline).get? j).map
          Row.otherGrants =
        ((computeProjections inputs overrides ⟨false, k, a⟩ debt asm pipeline).get? j).map
          Row.otherGrants ∧
      ((computeProjections inputs overrides ⟨true, k, a⟩ debt asm pipeline).get? j).map
          Row.debtCost =
        ((computeProjections inputs overrides ⟨false, k, a⟩ debt asm pipeline).get? j).map
          Row.debtCost) := by
  refine ⟨?_, ?_, ?_⟩
  · intro j hj
    rw [computeProjections_get?, computeProjections_get?]
    by_cases h5 : j < 5
    · rw [if_pos h5, if_pos h5]
      have hcum : cumGapAt inputs overrides ⟨true, k, a⟩ debt asm pipeline j =
          cumGapAt inputs overrides ⟨false, k, a⟩ debt asm pipeline j := by
        rw [cumGapAt_on_off, if_neg (by omega : ¬k < j)]
        ring
      rw [hcum]
      exact congrArg some
        (buildRow_shock_invariant inputs overrides debt asm pipeline _ _ j _ _
          (by rw [shockAt_on, shockAt_off, if_neg (by omega : ¬k = j)]))
    · rw [if_neg h5, if_neg h5]
  · have hcum : cumGapAt inputs overrides ⟨true, k, a⟩ debt asm pipeline k =
        cumGapAt inputs overrides ⟨false, k, a⟩ debt asm pipeline k := by
      rw [cumGapAt_on_off, if_neg (by omega : ¬k < k)]
      ring
    have hget1 : (computeProjections inputs overrides ⟨true, k, a⟩ debt asm pipeline).get? k =
        some (buildRow inputs overrides ⟨true, k, a⟩ debt asm pipeline k
          (prevBaseAt inputs overrides debt asm pipeline k)
          (cumGapAt inputs overrides ⟨false, k, a⟩ debt asm pipeline k)) := by
      rw [computeProjections_get?, if_pos hk, hcum]
    have hget0 : (computeProjections inputs overrides ⟨false, k, a⟩ debt asm pipeline).get? k =
        some (buildRow inputs overrides ⟨false, k, a⟩ debt asm pipeline k
          (prevBaseAt inputs overrides debt asm pipeline k)
          (cumGapAt inputs overrides ⟨false, k, a⟩ debt asm pipeline k)) := by
      rw [computeProjections_get?, if_pos hk]
    rw [hget1, hget0,
      buildRow_on_eq inputs overrides debt asm pipeline k a k _ _ rfl]
    exact ⟨rfl, rfl, rfl, rfl, rfl, rfl, rfl, rfl, rfl, rfl, rfl, rfl, rfl, rfl, rfl⟩
  · intro j hj
    by_cases h5 : j < 5
    · have hdiff : cumGapAt inputs overrides ⟨false, k, a⟩ debt asm pipeline j -
          cumGapAt inputs overrides ⟨true, k, a⟩ debt asm pipeline j = a := by
        rw [cumGapAt_on_off, if_pos hj]
        ring
      have hget1 : (computeProjections inputs overrides ⟨true, k, a⟩ debt asm pipeline).get? j =
          some (buildRow inputs overrides ⟨true, k, a⟩ debt asm pipeline j
            (prevBaseAt inputs overrides debt asm pipeline j)
            (cumGapAt inputs overrides ⟨true, k, a⟩ debt asm pipeline j)) := by
        rw [computeProjections_get?, if_pos h5]
      have hget0 : (computeProjections inputs overrides ⟨false, k, a⟩ debt asm pipeline).get? j =
          some (buildRow inputs overrides ⟨false, k, a⟩ debt asm pipeline j
            (prevBaseAt inputs overrides debt asm pipeline j)
            (cumGapAt inputs overrides ⟨false, k, a⟩ debt asm pipeline j)) := by
        rw [computeProjections_get?, if_pos h5]
      rw [hget1, hget0,
        buildRow_noshock_eq inputs overrides debt asm pipeline k a j _ _ _
          (by omega : k ≠ j), hdiff]
      exact ⟨rfl, rfl, rfl, rfl, rfl, rfl, rfl, rfl, rfl, rfl, rfl, rfl, rfl, rfl, rfl⟩
    · rw [computeProjections_get?, computeProjections_get?, if_neg h5, if_neg h5]
      exact ⟨rfl, rfl, rfl, rfl, rfl, rfl, rfl, rfl, rfl, rfl, rfl, rfl, rfl, rfl, rfl⟩

end ShockFrame

/-- Counterexample to C2 as stated: with the all-zero scenario, shock year
index 0 and shock amount 1, the year-0 row's `shockAmount` field also
changes (from 0 to 1), so the shock does not change only `totalFunding`
and the downstream gap/reserve values. -/
theorem c2_cex :
    ((computeProjections zeroInputs [] ⟨true, 0, 1⟩ none zeroAssumptions []).get? 0).map
        Row.shockAmount = some 1 ∧
    ((computeProjections zeroInputs [] ⟨false, 0, 1⟩ none zeroAssumptions []).get? 0).map
        Row.shockAmount = some 0 := by
  decide

/-- Witness for C2 (amended) at a concrete scenario. -/
theorem c2_witness :
    ((computeProjections zeroInputs [] ⟨true, 0, 1⟩ none zeroAssumptions []).get? 0).map
        Row.totalFunding =
      ((computeProjections zeroInputs [] ⟨false, 0, 1⟩ none zeroAssumptions []).get? 0).map
        (fun r => r.totalFunding + 1) :=
  (c2_amended zeroInputs [] none zeroAssumptions [] 0 (by decide) 1).2.1.1

lemma pipelineStep_eq (i : Nat) (s : ℚ) (item : PipelineItem) :
    (if item.startYear > i + 1 then s
      else if item.recurring = false ∧ item.startYear ≠ i + 1 then s
      else s + item.amount * item.confidence.getD 1) =
      s + pipelineContribution i item := by
  unfold pipelineContribution
  rcases Bool.eq_false_or_eq_true item.recurring with hb | hb <;>
    simp only [hb, Bool.true_eq_false, Bool.false_eq_true, true_and, false_and,
      and_true, and_false, false_or, or_false, if_false, ne_eq] <;>
    split_ifs <;> first | ring1 | (exfalso; omega)

lemma calcPipelineSavings_eq_sum (pipeline : List PipelineItem) (i : Nat) :
    calcPipelineSavings pipeline i = (pipeline.map (pipelineContribution i)).sum := by
  unfold calcPipelineSavings
  suffices h : ∀ (l : List PipelineItem) (s : ℚ),
      l.foldl
        (fun sum item =>
          if item.startYear > i + 1 then sum
          else if item.recurring = false ∧ item.startYear ≠ i + 1 then sum
          else sum + item.amount * item.confidence.getD 1)
        s = s + (l.map (pipelineContribution i)).sum by
    simpa using h pipeline 0
  intro l
  induction l with
  | nil => intro s; simp
  | cons x l ih =>
    intro s
    rw [List.foldl_cons, ih, List.map_cons, List.sum_cons, pipelineStep_eq]
    ring

/-- C7: the `pipelineSavings` component of every projection year `i` is the
sum of `amount × confidence` over exactly those pipeline items that are
recurring with `startYear ≤ i+1` or one-off with `startYear = i+1`; items
with `startYear > i+1` contribute 0. -/
theorem c7 (inputs : YearInputs) (overrides : List Override) (fundingShock : FundingShock)
    (debt : Option Debt) (asm : Assumptions) (pipeline : List PipelineItem)
    (i : Nat) (hi : i < 5) :
    ((computeProjections inputs overrides fundingShock debt asm pipeline).get? i).map
        Row.pipelineSavings =
      some ((pipeline.map (pipelineContribution i)).sum) ∧
    ∀ item ∈ pipeline, i + 1 < item.startYear → pipelineContribution i item = 0 := by
  constructor
  · rw [computeProjections_get?, if_pos hi]
    simp only [Option.map_some']
    rw [show (buildRow inputs overrides fundingShock debt asm pipeline i
        (prevBaseAt inputs overrides debt asm pipeline i)
        (cumGapAt inputs overrides fundingShock debt asm pipeline i)).pipelineSavings =
        calcPipelineSavings pipeline i from rfl]
    rw [calcPipelineSavings_eq_sum]
  · intro item _ hlt
    unfold pipelineContribution
    rw [if_neg]
    rintro (⟨_, h⟩ | ⟨_, h⟩) <;> omega

/-- The source's `defaultSavingsPipeline` constant. -/
def defaultSavingsPipeline : List PipelineItem :=
  [⟨"Digital channel shift", 2000000, 1, true, some (7/10)⟩,
   ⟨"Commissioning re-tender", 3500000, 2, true, some (55/100)⟩,
   ⟨"Asset rationalisation", 4000000, 1, false, some (1/2)⟩]

/-- Witness for C7 at a concrete scenario (year index 0, default pipeline). -/
theorem c7_witness :
    ((computeProjections zeroInputs [] offShock none zeroAssumptions
        defaultSavingsPipeline).get? 0).map Row.pipelineSavings =
      some ((defaultSavingsPipeline.map (pipelineContribution 0)).sum) :=
  (c7 zeroInputs [] offShock none zeroAssumptions defaultSavingsPipeline 0 (by decide)).1

/-- One output entry of the sensitivity table. -/
structure SensitivityEntry where
  driver : String
  up : ℚ
  down : ℚ
deriving DecidableEq

/-- One driver's entry of `computeSensitivity`: perturb the driver by ±1
(`upInputs` / `downInputs`), recompute the year-1 gap, and report the two
differences against the baseline gap (`(upGap ?? 0) - (baseline ?? 0)` and
`(baseline ?? 0) - (downGap ?? 0)` in the source). -/
def sensitivityEntry (inputs : YearInputs) (overrides : List Override)
    (fundingShock : FundingShock) (debt : Option Debt) (asm : Assumptions)
    (pipeline : List PipelineItem) (label : String) (read : YearInputs → ℚ)
    (write : ℚ → YearInputs → YearInputs) : SensitivityEntry :=
  { driver := label
    up :=
      ((((computeProjections (write (read inputs + 1) inputs) overrides fundingShock debt
          asm pipeline).get? 0).map Row.annualGap).getD 0) -
        ((((computeProjections inputs overrides fundingShock debt asm pipeline).get? 0).map
          Row.annualGap).getD 0)
    down :=
      ((((computeProjections inputs overrides fundingShock debt asm pipeline).get? 0).map
          Row.annualGap).getD 0) -
        ((((computeProjections (write (read inputs - 1) inputs) overrides fundingShock debt
          asm pipeline).get? 0).map Row.annualGap).getD 0) }

/-- Source `computeSensitivity`: the four drivers in source order. -/
def computeSensitivity (inputs : YearInputs) (overrides : List Override)
    (fundingShock : FundingShock) (debt : Option Debt) (asm : Assumptions)
    (pipeline : List PipelineItem) : List SensitivityEntry :=
  [sensitivityEntry inputs overrides fundingShock debt asm pipeline
      "Council Tax %" YearInputs.councilTaxIncrease
      (fun v yi => { yi with councilTaxIncrease := v }),
    sensitivityEntry inputs overrides fundingShock debt asm pipeline
      "Pay Award %" YearInputs.payAward (fun v yi => { yi with payAward := v }),
    sensitivityEntry inputs overrides fundingShock debt asm pipeline
      "General Inflation %" YearInputs.generalInflation
      (fun v yi => { yi with generalInflation := v }),
    sensitivityEntry inputs overrides fundingShock debt asm pipeline
      "Demand Growth %" YearInputs.socialCareGrowth
      (fun v yi => { yi with socialCareGrowth := v })]

lemma resolveInputsForYear_override_all (overrides : List Override) (o : Override)
    (h0 : overrides.get? 0 = some o) (he : o.enabled = true) (c p g s : ℚ)
    (hc : o.councilTaxIncrease = some c) (hp : o.payAward = some p)
    (hg : o.generalInflation = some g) (hs : o.socialCareGrowth = some s)
    (x : YearInputs) :
    resolveInputsForYear x overrides 0 = ⟨c, p, g, s⟩ := by
  unfold resolveInputsForYear
  rw [h0]
  simp [he, hc, hp, hg, hs]

lemma year0Row_inputs_indep (overrides : List Override) (o : Override)
    (h0 : overrides.get? 0 = some o) (he : o.enabled = true) (c p g s : ℚ)
    (hc : o.councilTaxIncrease = some c) (hp : o.payAward = some p)
    (hg : o.generalInflation = some g) (hs : o.socialCareGrowth = some s)
    (x y : YearInputs) (fundingShock : FundingShock)
    (debt : Option Debt) (asm : Assumptions) (pipeline : List PipelineItem) :
    ((computeProjections x overrides fundingShock debt asm pipeline).get? 0).map
        Row.annualGap =
      ((computeProjections y overrides fundingShock debt asm pipeline).get? 0).map
        Row.annualGap := by
  rw [computeProjections_get?, computeProjections_get?, if_pos (by omega : (0:Nat) < 5),
    if_pos (by omega : (0:Nat) < 5)]
  simp only [Option.map_some']
  congr 1
  show (buildRow x overrides fundingShock debt asm pipeline 0 asm.previousYearBase 0).annualGap =
    (buildRow y overrides fundingShock debt asm pipeline 0 asm.previousYearBase 0).annualGap
  unfold buildRow
  rw [resolveInputsForYear_override_all overrides o h0 he c p g s hc hp hg hs x,
    resolveInputsForYear_override_all overrides o h0 he c p g s hc hp hg hs y]

lemma sensitivityEntry_zero (overrides : List Override) (o : Override)
    (h0 : overrides.get? 0 = some o) (he : o.enabled = true) (c p g s : ℚ)
    (hc : o.councilTaxIncrease = some c) (hp : o.payAward = some p)
    (hg : o.generalInflation = some g) (hs : o.socialCareGrowth = some s)
    (x : YearInputs) (fundingShock : FundingShock)
    (debt : Option Debt) (asm : Assumptions) (pipeline : List PipelineItem)
    (label : String) (read : YearInputs → ℚ) (write : ℚ → YearInputs → YearInputs) :
    sensitivityEntry x overrides fundingShock debt asm pipeline label read write =
      ⟨label, 0, 0⟩ := by
  unfold sensitivityEntry
  rw [year0Row_inputs_indep overrides o h0 he c p g s hc hp hg hs
      (write (read x + 1) x) x fundingShock debt asm pipeline,
    year0Row_inputs_indep overrides o h0 he c p g s hc hp hg hs
      (write (read x - 1) x) x fundingShock debt asm pipeline]
  simp

/-- C10: when the year-0 override is enabled and supplies all four drivers,
the ±1 sensitivity perturbations of the baseline drivers cannot reach the
year-1 gap (the override fully replaces them), so every driver's reported
`up` and `down` deltas are 0. -/
theorem c10 (inputs : YearInputs) (overrides : List Override) (fundingShock : FundingShock)
    (debt : Option Debt) (asm : Assumptions) (pipeline : List PipelineItem)
    (o : Override) (h0 : overrides.get? 0 = some o) (he : o.enabled = true)
    (c p g s : ℚ) (hc : o.councilTaxIncrease = some c) (hp : o.payAward = some p)
    (hg : o.generalInflation = some g) (hs : o.socialCareGrowth = some s) :
    computeSensitivity inputs overrides fundingShock debt asm pipeline =
      [⟨"Council Tax %", 0, 0⟩, ⟨"Pay Award %", 0, 0⟩,
       ⟨"General Inflation %", 0, 0⟩, ⟨"Demand Growth %", 0, 0⟩] := by
  unfold computeSensitivity
  simp only [sensitivityEntry_zero overrides o h0 he c p g s hc hp hg hs]

/-- A year-0 override enabling all four drivers, used for the C10 witness. -/
def fullOverride : Override := ⟨true, some 2, some 3, some 4, some 5⟩

/-- Witness for C10 at a concrete scenario. -/
theorem c10_witness :
    computeSensitivity zeroInputs [fullOverride] offShock none zeroAssumptions [] =
      [⟨"Council Tax %", 0, 0⟩, ⟨"Pay Award %", 0, 0⟩,
       ⟨"General Inflation %", 0, 0⟩, ⟨"Demand Growth %", 0, 0⟩] :=
  c10 zeroInputs [fullOverride] offShock none zeroAssumptions [] fullOverride
    rfl rfl 2 3 4 5 rfl rfl rfl rfl

/-- The year-1 gap probed by the solver at council-tax rate `mid`:
`computeProjections({...inputs, councilTaxIncrease: mid}, ...)[0]?.annualGap`. -/
def solverGap (inputs : YearInputs) (overrides : List Override) (fundingShock : FundingShock)
    (debt : Option Debt) (asm : Assumptions) (pipeline : List PipelineItem)
    (mid : ℚ) : Option ℚ :=
  ((computeProjections { inputs with councilTaxIncrease := mid } overrides fundingShock debt
      asm pipeline).get? 0).map Row.annualGap

/-- The loop of `solveCouncilTaxIncrease`: `n` remaining iterations over the
bracket `[low, high]` carrying the recorded `best`; an undefined probed gap
returns null immediately (the source's `if (gap === undefined) return null`). -/
def solveAux (inputs : YearInputs) (overrides : List Override) (fundingShock : FundingShock)
    (debt : Option Debt) (asm : Assumptions) (pipeline : List PipelineItem) :
    Nat → ℚ → ℚ → Option ℚ → Option ℚ
  | 0, _, _, best => best
  | n + 1, low, high, best =>
    match solverGap inputs overrides fundingShock debt asm pipeline ((low + high) / 2) with
    | none => none
    | some gap =>
      if gap > 0 then
        solveAux inputs overrides fundingShock debt asm pipeline n ((low + high) / 2) high best
      else
        solveAux inputs overrides fundingShock debt asm pipeline n low ((low + high) / 2)
          (some ((low + high) / 2))

/-- Source `solveCouncilTaxIncrease`: 20 bisection iterations on `[0, 5]`
starting with no recorded best. -/
def solveCouncilTaxIncrease (inputs : YearInputs) (overrides : List Override)
    (fundingShock : FundingShock) (debt : Option Debt) (asm : Assumptions)
    (pipeline : List PipelineItem) : Option ℚ :=
  solveAux inputs overrides fundingShock debt asm pipeline 20 0 5 none

/-- The sequence of midpoints tested by the bisection loop, in test order. -/
def solveTrace (inputs : YearInputs) (overrides : List Override) (fundingShock : FundingShock)
    (debt : Option Debt) (asm : Assumptions) (pipeline : List PipelineItem) :
    Nat → ℚ → ℚ → List ℚ
  | 0, _, _ => []
  | n + 1, low, high =>
    ((low + high) / 2) ::
      (match solverGap inputs overrides fundingShock debt asm pipeline ((low + high) / 2) with
        | none => []
        | some gap =>
          if gap > 0 then
            solveTrace inputs overrides fundingShock debt asm pipeline n ((low + high) / 2) high
          else
            solveTrace inputs overrides fundingShock debt asm pipeline n low ((low + high) / 2))

/-- The year-1 annual gap as a total function of the substituted
council-tax rate (closed form of what the solver probes). -/
def year1Gap (inputs : YearInputs) (overrides : List Override) (fundingShock : FundingShock)
    (debt : Option Debt) (asm : Assumptions) (pipeline : List PipelineItem) (mid : ℚ) : ℚ :=
  gapAt { inputs with councilTaxIncrease := mid } overrides fundingShock debt asm pipeline 0

lemma solverGap_eq (inputs : YearInputs) (overrides : List Override)
    (fundingShock : FundingShock) (debt : Option Debt) (asm : Assumptions)
    (pipeline : List PipelineItem) (mid : ℚ) :
    solverGap inputs overrides fundingShock debt asm pipeline mid =
      some (year1Gap inputs overrides fundingShock debt asm pipeline mid) := by
  unfold solverGap year1Gap
  rw [computeProjections_get?, if_pos (by omega : (0:Nat) < 5)]
  rfl

lemma solveTrace_length (inputs : YearInputs) (overrides : List Override)
    (fundingShock : FundingShock) (debt : Option Debt) (asm : Assumptions)
    (pipeline : List PipelineItem) :
    ∀ (n : Nat) (low high : ℚ),
      (solveTrace inputs overrides fundingShock debt asm pipeline n low high).length = n := by
  intro n
  induction n with
  | zero => intro low high; simp [solveTrace]
  | succ n ih =>
    intro low high
    simp only [solveTrace, solverGap_eq]
    split_ifs <;> simp [ih]

lemma solveTrace_mem_between (inputs : YearInputs) (overrides : List Override)
    (fundingShock : FundingShock) (debt : Option Debt) (asm : Assumptions)
    (pipeline : List PipelineItem) :
    ∀ (n : Nat) (low high : ℚ), low < high →
      ∀ m ∈ solveTrace inputs overrides fundingShock debt asm pipeline n low high,
        low < m ∧ m < high := by
  intro n
  induction n with
  | zero => intro low high _ m hm; simp [solveTrace] at hm
  | succ n ih =>
    intro low high hlh m hm
    have hmid1 : low < (low + high) / 2 := by linarith
    have hmid2 : (low + high) / 2 < high := by linarith
    simp only [solveTrace, solverGap_eq] at hm
    rcases List.mem_cons.mp hm with rfl | hm'
    · exact ⟨hmid1, hmid2⟩
    · by_cases hg :
        year1Gap inputs overrides fundingShock debt asm pipeline ((low + high) / 2) > 0
      · rw [if_pos hg] at hm'
        have h := ih ((low + high) / 2) high hmid2 m hm'
        exact ⟨lt_trans hmid1 h.1, h.2⟩
      · rw [if_neg hg] at hm'
        have h := ih low ((low + high) / 2) hmid1 m hm'
        exact ⟨h.1, lt_trans h.2 hmid2⟩

lemma solveAux_spec (inputs : YearInputs) (overrides : List Override)
    (fundingShock : FundingShock) (debt : Option Debt) (asm : Assumptions)
    (pipeline : List PipelineItem) :
    ∀ (n : Nat) (low high : ℚ) (best : Option ℚ), low < high →
      (best = none ∨ (best = some high ∧
        year1Gap inputs overrides fundingShock debt asm pipeline high ≤ 0)) →
      (solveAux inputs overrides fundingShock debt asm pipeline n low high best = none →
        best = none ∧
          ∀ m ∈ solveTrace inputs overrides fundingShock debt asm pipeline n low high,
            0 < year1Gap inputs overrides fundingShock debt asm pipeline m) ∧
      (∀ r, solveAux inputs overrides fundingShock debt asm pipeline n low high best = some r →
        year1Gap inputs overrides fundingShock debt asm pipeline r ≤ 0 ∧
          ((r ∈ solveTrace inputs overrides fundingShock debt asm pipeline n low high ∧
              ∀ m ∈ solveTrace inputs overrides fundingShock debt asm pipeline n low high,
                year1Gap inputs overrides fundingShock debt asm pipeline m ≤ 0 → r ≤ m) ∨
            (best = some r ∧
              ∀ m ∈ solveTrace inputs overrides fundingShock debt asm pipeline n low high,
                0 < year1Gap inputs overrides fundingShock debt asm pipeline m))) := by
  intro n
  induction n with
  | zero =>
    intro low high best _ hinv
    constructor
    · intro hres
      exact ⟨hres, by intro m hm; simp [solveTrace] at hm⟩
    · intro r hres
      simp only [solveAux] at hres
      rcases hinv with hnone | ⟨hbest, hgap⟩
      · rw [hnone] at hres; exact absurd hres (by simp)
      · rw [hbest] at hres
        have : high = r := by injection hres
        subst this
        exact ⟨hgap, Or.inr ⟨hbest, by intro m hm; simp [solveTrace] at hm⟩⟩
  | succ n ih =>
    intro low high best hlh hinv
    have hmid1 : low < (low + high) / 2 := by linarith
    have hmid2 : (low + high) / 2 < high := by linarith
    simp only [solveAux, solveTrace, solverGap_eq]
    by_cases hg :
      year1Gap inputs overrides fundingShock debt asm pipeline ((low + high) / 2) > 0
    · simp only [if_pos hg]
      obtain ⟨ihnone, ihsome⟩ := ih ((low + high) / 2) high best hmid2 hinv
      constructor
      · intro hres
        obtain ⟨hb, hall⟩ := ihnone hres
        refine ⟨hb, ?_⟩
        intro m hm
        rcases List.mem_cons.mp hm with rfl | hm'
        · exact hg
        · exact hall m hm'
      · intro r hres
        obtain ⟨hg0, hcase⟩ := ihsome r hres
        refine ⟨hg0, ?_⟩
        rcases hcase with ⟨hmem, hmin⟩ | ⟨hbest, hall⟩
        · refine Or.inl ⟨List.mem_cons_of_mem _ hmem, ?_⟩
          intro m hm hm0
          rcases List.mem_cons.mp hm with rfl | hm'
          · exact absurd hm0 (by linarith)
          · exact hmin m hm' hm0
        · refine Or.inr ⟨hbest, ?_⟩
          intro m hm
          rcases List.mem_cons.mp hm with rfl | hm'
          · exact hg
          · exact hall m hm'
    · simp only [if_neg hg]
      have hgle : year1Gap inputs overrides fundingShock debt asm pipeline
          ((low + high) / 2) ≤ 0 := not_lt.mp hg
      obtain ⟨ihnone, ihsome⟩ :=
        ih low ((low + high) / 2) (some ((low + high) / 2)) hmid1 (Or.inr ⟨rfl, hgle⟩)
      constructor
      · intro hres
        obtain ⟨hb, _⟩ := ihnone hres
        exact absurd hb (by simp)
      · intro r hres
        obtain ⟨hg0, hcase⟩ := ihsome r hres
        refine ⟨hg0, Or.inl ?_⟩
        rcases hcase with ⟨hmem, hmin⟩ | ⟨hbest, hall⟩
        · refine ⟨List.mem_cons_of_mem _ hmem, ?_⟩
          intro m hm hm0
          rcases List.mem_cons.mp hm with rfl | hm'
          · exact le_of_lt
              (solveTrace_mem_between inputs overrides fundingShock debt asm pipeline
                n low ((low + high) / 2) hmid1 r hmem).2
          · exact hmin m hm' hm0
        · have : (low + high) / 2 = r := by injection hbest
          subst this
          refine ⟨List.mem_cons_self _ _, ?_⟩
          intro m hm hm0
          rcases List.mem_cons.mp hm with rfl | hm'
          · exact le_refl _
          · exact absurd hm0 (not_le.mpr (hall m hm'))

/-- C3 (amended): the solver bisects the bracket `[0, 5]` for exactly 20
iterations (all 20 tested midpoints lie strictly inside `(0, 5)`, with no
tolerance-based early exit); a non-null result is the smallest tested
midpoint closing the gap, and substituting it yields a year-1 gap ≤ 0;
a null result means the engine yielded no rows or — as the counterexample
shows actually happens — no tested midpoint closed the gap. -/
theorem c3_amended (inputs : YearInputs) (overrides : List Override)
    (fundingShock : FundingShock) (debt : Option Debt) (asm : Assumptions)
    (pipeline : List PipelineItem) :
    (solveTrace inputs overrides fundingShock debt asm pipeline 20 0 5).length = 20 ∧
    (∀ m ∈ solveTrace inputs overrides fundingShock debt asm pipeline 20 0 5,
      0 < m ∧ m < 5) ∧
    (∀ r, solveCouncilTaxIncrease inputs overrides fundingShock debt asm pipeline = some r →
      year1Gap inputs overrides fundingShock debt asm pipeline r ≤ 0 ∧
        r ∈ solveTrace inputs overrides fundingShock debt asm pipeline 20 0 5 ∧
        ∀ m ∈ solveTrace inputs overrides fundingShock debt asm pipeline 20 0 5,
          year1Gap inputs overrides fundingShock debt asm pipeline m ≤ 0 → r ≤ m) ∧
    (solveCouncilTaxIncrease inputs overrides fundingShock debt asm pipeline = none →
      ∀ m ∈ solveTrace inputs overrides fundingShock debt asm pipeline 20 0 5,
        0 < year1Gap inputs overrides fundingShock debt asm pipeline m) := by
  have h05 : (0 : ℚ) < 5 := by norm_num
  have hspec := solveAux_spec inputs overrides fundingShock debt asm pipeline 20 0 5 none
    h05 (Or.inl rfl)
  refine ⟨solveTrace_length inputs overrides fundingShock debt asm pipeline 20 0 5,
    fun m hm =>
      solveTrace_mem_between inputs overrides fundingShock debt asm pipeline 20 0 5 h05 m hm,
    ?_, ?_⟩
  · intro r hr
    obtain ⟨hg0, hcase⟩ := hspec.2 r hr
    rcases hcase with ⟨hmem, hmin⟩ | ⟨hbest, _⟩
    · exact ⟨hg0, hmem, hmin⟩
    · exact absurd hbest (by simp)
  · intro hr
    exact (hspec.1 hr).2

lemma solveAux_of_all_close (inputs : YearInputs) (overrides : List Override)
    (fundingShock : FundingShock) (debt : Option Debt) (asm : Assumptions)
    (pipeline : List PipelineItem)
    (hg : ∀ m, year1Gap inputs overrides fundingShock debt asm pipeline m ≤ 0) :
    ∀ (n : Nat) (low high : ℚ) (best : Option ℚ),
      solveAux inputs overrides fundingShock debt asm pipeline n low high best =
        if n = 0 then best else some (low + (high - low) / 2 ^ n) := by
  intro n
  induction n with
  | zero => intro low high best; simp [solveAux]
  | succ n ih =>
    intro low high best
    simp only [solveAux, solverGap_eq]
    rw [if_neg (not_lt.mpr (hg ((low + high) / 2))),
      ih low ((low + high) / 2) (some ((low + high) / 2))]
    by_cases hn : n = 0
    · subst hn
      norm_num
      ring
    · rw [if_neg hn, if_neg (by omega : ¬n + 1 = 0)]
      congr 1
      rw [pow_succ]
      ring

lemma solveAux_of_all_fail (inputs : YearInputs) (overrides : List Override)
    (fundingShock : FundingShock) (debt : Option Debt) (asm : Assumptions)
    (pipeline : List PipelineItem)
    (hg : ∀ m, 0 < year1Gap inputs overrides fundingShock debt asm pipeline m) :
    ∀ (n : Nat) (low high : ℚ) (best : Option ℚ),
      solveAux inputs overrides fundingShock debt asm pipeline n low high best = best := by
  intro n
  induction n with
  | zero => intro low high best; simp [solveAux]
  | succ n ih =>
    intro low high best
    simp only [solveAux, solverGap_eq]
    rw [if_pos (hg ((low + high) / 2))]
    exact ih ((low + high) / 2) high best

/-- Assumptions with a positive base requirement and zero funding, under
which no council-tax rate in `[0, 5]` can close the gap. -/
def cexAssumptions : Assumptions := ⟨0, 100, 0, 0, 0, 0, 0, 0, 0, 0, ⟨0, 0, 0⟩⟩

lemma year1Gap_cexScenario (mid : ℚ) :
    year1Gap zeroInputs [] offShock none cexAssumptions [] mid = 100 := by
  unfold year1Gap gapAt nbrOf prevBaseAt baseFundingOf councilTaxRevenueOf businessRatesOf
    revenueSupportGrantOf otherGrantsOf payPriceInflationOf demandPressuresOf
    plannedSavingsOf debtCostOf shockAt resolveInputsForYear calcPipelineSavings
  norm_num [zeroInputs, cexAssumptions, offShock]

lemma year1Gap_zeroScenario (mid : ℚ) :
    year1Gap zeroInputs [] offShock none zeroAssumptions [] mid = 0 := by
  unfold year1Gap gapAt nbrOf prevBaseAt baseFundingOf councilTaxRevenueOf businessRatesOf
    revenueSupportGrantOf otherGrantsOf payPriceInflationOf demandPressuresOf
    plannedSavingsOf debtCostOf shockAt resolveInputsForYear calcPipelineSavings
  norm_num [zeroInputs, zeroAssumptions, offShock]

lemma solve_cexScenario :
    solveCouncilTaxIncrease zeroInputs [] offShock none cexAssumptions [] = none := by
  unfold solveCouncilTaxIncrease
  rw [solveAux_of_all_fail zeroInputs [] offShock none cexAssumptions []
    (fun m => by rw [year1Gap_cexScenario]; norm_num) 20 0 5 none]

lemma solve_zeroScenario :
    solveCouncilTaxIncrease zeroInputs [] offShock none zeroAssumptions [] =
      some (5 / 1048576) := by
  unfold solveCouncilTaxIncrease
  rw [solveAux_of_all_close zeroInputs [] offShock none zeroAssumptions []
    (fun m => by rw [year1Gap_zeroScenario]) 20 0 5 none]
  norm_num

/-- Counterexample to C3 as stated: with `cexAssumptions` the engine yields
its full 5 rows at every probed rate, yet the solver returns null, because
no tested midpoint closes the (constant, positive) gap — so null does not
imply that the engine yielded no rows. -/
theorem c3_cex :
    solveCouncilTaxIncrease zeroInputs [] offShock none cexAssumptions [] = none ∧
    (computeProjections { zeroInputs with councilTaxIncrease := (0 + 5) / 2 } [] offShock
        none cexAssumptions []).length = 5 :=
  ⟨solve_cexScenario,
    computeProjections_length { zeroInputs with councilTaxIncrease := (0 + 5) / 2 } []
      offShock none cexAssumptions []⟩

/-- Witness for C3 (amended): at the all-zero scenario the solver returns
`5 / 2^20`, and substituting that rate yields a year-1 gap ≤ 0. -/
theorem c3_witness :
    year1Gap zeroInputs [] offShock none zeroAssumptions [] (5 / 1048576) ≤ 0 :=
  ((c3_amended zeroInputs [] offShock none zeroAssumptions []).2.2.1 (5 / 1048576)
    solve_zeroScenario).1

/-- Source `mulberry32`, one draw: the 32-bit counter advances by the fixed
odd increment `0x6d2b79f5`; the output is the mixed bit pattern divided by
`2^32`.  Every intermediate value is a bit pattern in `Nat` reduced
`% 2^32`, mirroring JavaScript's `ToInt32`/`ToUint32` coercions and
`Math.imul`; the returned pair is (new counter state, uniform in `[0,1)`). -/
def mulberry32Next (t : Nat) : Nat × ℚ :=
  let t1 := (t + 0x6d2b79f5) % 4294967296
  let r1 := ((t1 ^^^ (t1 >>> 15)) * (1 ||| t1)) % 4294967296
  let r2 := r1 ^^^ ((r1 + ((r1 ^^^ (r1 >>> 7)) * (61 ||| r1)) % 4294967296) % 4294967296)
  (t1, ((r2 ^^^ (r2 >>> 14) : Nat) : ℚ) / 4294967296)

/-- Source `normalish`: two uniform draws `u, v` (a zero draw is replaced
by `1e-9`), combined by the Box-Muller cosine branch.  The transcendental
map `u v ↦ sqrt(-2·ln u)·cos(2·π·v)` is abstracted by the parameter `φ`;
the returned pair is (state after the two draws, variate). -/
def normalishNext (φ : ℚ → ℚ → ℚ) (t : Nat) : Nat × ℚ :=
  let d1 := mulberry32Next t
  let u := if d1.2 = 0 then (1 : ℚ) / 1000000000 else d1.2
  let d2 := mulberry32Next d1.1
  let v := if d2.2 = 0 then (1 : ℚ) / 1000000000 else d2.2
  (d2.1, φ u v)

/-- One simulation of `computeStressTest`: four normal variates drawn in
source order (council tax, pay, inflation, demand), each scaled by its
sigma and added to the baseline driver; the engine runs on the tweaked
drivers and the year-1 gap and year-5 reserves are recorded
(`sim[0]?.annualGap ?? 0`, `sim[4]?.reservesEnd ?? 0`).  Returns
(state after the 8 draws, (year-1 gap, year-5 reserves)). -/
def simStep (φ : ℚ → ℚ → ℚ) (inputs : YearInputs) (overrides : List Override)
    (fundingShock : FundingShock) (debt : Option Debt) (asm : Assumptions)
    (pipeline : List PipelineItem) (stress : Stress) (t : Nat) : Nat × (ℚ × ℚ) :=
  let n1 := normalishNext φ t
  let n2 := normalishNext φ n1.1
  let n3 := normalishNext φ n2.1
  let n4 := normalishNext φ n3.1
  let tweak : YearInputs :=
    { councilTaxIncrease := inputs.councilTaxIncrease + n1.2 * stress.ctSigma
      payAward := inputs.payAward + n2.2 * stress.paySigma
      generalInflation := inputs.generalInflation + n3.2 * stress.inflationSigma
      socialCareGrowth := inputs.socialCareGrowth + n4.2 * stress.demandSigma }
  let sim := computeProjections tweak overrides fundingShock debt asm pipeline
  (n4.1, (((sim.get? 0).map Row.annualGap).getD 0, ((sim.get? 4).map Row.reservesEnd).getD 0))

/-- The simulation loop of `computeStressTest`: `n` simulations threading
the generator state, collecting (year-1 gap, year-5 reserves) pairs in
order. -/
def runSims (φ : ℚ → ℚ → ℚ) (inputs : YearInputs) (overrides : List Override)
    (fundingShock : FundingShock) (debt : Option Debt) (asm : Assumptions)
    (pipeline : List PipelineItem) (stress : Stress) : Nat → Nat → List (ℚ × ℚ)
  | 0, _ => []
  | n + 1, t =>
    (simStep φ inputs overrides fundingShock debt asm pipeline stress t).2 ::
      runSims φ inputs overrides fundingShock debt asm pipeline stress n
        (simStep φ inputs overrides fundingShock debt asm pipeline stress t).1

/-- The index read by the source's `pick`:
`Math.floor(p * (arr.length - 1))` (an `Int`, `-1` on an empty vector). -/
def pickIndex (len : Nat) (p : ℚ) : Int :=
  Int.floor (p * ((len : ℚ) - 1))

/-- Source `pick`: `arr[Math.floor(p * (arr.length - 1))]`; a negative or
out-of-range index yields `undefined` (`none`). -/
def pick (arr : List ℚ) (p : ℚ) : Option ℚ :=
  if pickIndex arr.length p < 0 then none else arr.get? (pickIndex arr.length p).toNat

/-- The six-value percentile summary returned by `computeStressTest`
(JavaScript `undefined` is `none`). -/
structure StressSummary where
  p10Gap : Option ℚ
  p50Gap : Option ℚ
  p90Gap : Option ℚ
  p10Reserves : Option ℚ
  p50Reserves : Option ℚ
  p90Reserves : Option ℚ
deriving DecidableEq

/-- The ascending sort of the recorded year-1 gaps
(the source's `results.map(r => r.year1Gap).sort((a, b) => a - b)`; a
comparison sort of rationals returns the unique ascending-sorted
permutation, here computed by insertion sort). -/
def sortedGaps (φ : ℚ → ℚ → ℚ) (inputs : YearInputs) (overrides : List Override)
    (fundingShock : FundingShock) (debt : Option Debt) (asm : Assumptions)
    (pipeline : List PipelineItem) (stress : Stress) : List ℚ :=
  List.insertionSort (· ≤ ·)
    ((runSims φ inputs overrides fundingShock debt asm pipeline stress
        stress.simulations stress.seed).map Prod.fst)

/-- The ascending sort of the recorded year-5 reserves. -/
def sortedReserves (φ : ℚ → ℚ → ℚ) (inputs : YearInputs) (overrides : List Override)
    (fundingShock : FundingShock) (debt : Option Debt) (asm : Assumptions)
    (pipeline : List PipelineItem) (stress : Stress) : List ℚ :=
  List.insertionSort (· ≤ ·)
    ((runSims φ inputs overrides fundingShock debt asm pipeline stress
        stress.simulations stress.seed).map Prod.snd)

/-- Source `computeStressTest`: seed the generator with `stress.seed`, run
`stress.simulations` simulations, and read the 10th/50th/90th percentiles
of both sorted result vectors (the source's decimal literals 0.1/0.5/0.9
are the rationals 1/10, 1/2, 9/10). -/
def computeStressTest (φ : ℚ → ℚ → ℚ) (inputs : YearInputs) (overrides : List Override)
    (fundingShock : FundingShock) (debt : Option Debt) (asm : Assumptions)
    (pipeline : List PipelineItem) (stress : Stress) : StressSummary :=
  { p10Gap := pick (sortedGaps φ inputs overrides fundingShock debt asm pipeline stress) (1 / 10)
    p50Gap := pick (sortedGaps φ inputs overrides fundingShock debt asm pipeline stress) (1 / 2)
    p90Gap := pick (sortedGaps φ inputs overrides fundingShock debt asm pipeline stress) (9 / 10)
    p10Reserves :=
      pick (sortedReserves φ inputs overrides fundingShock debt asm pipeline stress) (1 / 10)
    p50Reserves :=
      pick (sortedReserves φ inputs overrides fundingShock debt asm pipeline stress) (1 / 2)
    p90Reserves :=
      pick (sortedReserves φ inputs overrides fundingShock debt asm pipeline stress) (9 / 10) }

lemma mulberry32Next_fst (t : Nat) :
    (mulberry32Next t).1 = (t + 1831565813) % 4294967296 := rfl

lemma mulberry32Next_mod (t : Nat) :
    mulberry32Next (t % 4294967296) = mulberry32Next t := by
  unfold mulberry32Next
  rw [Nat.mod_add_mod]

lemma normalishNext_fst (φ : ℚ → ℚ → ℚ) (t : Nat) :
    (normalishNext φ t).1 =
      ((t + 1831565813) % 4294967296 + 1831565813) % 4294967296 := rfl

lemma normalishNext_fst_closed (φ : ℚ → ℚ → ℚ) (t : Nat) :
    (normalishNext φ t).1 = (t + 2 * 1831565813) % 4294967296 := by
  rw [normalishNext_fst]
  omega

lemma normalishNext_mod (φ : ℚ → ℚ → ℚ) (t : Nat) :
    normalishNext φ (t % 4294967296) = normalishNext φ t := by
  unfold normalishNext
  rw [mulberry32Next_mod]

section StressLemmas

variable (φ : ℚ → ℚ → ℚ) (inputs : YearInputs) (overrides : List Override)
  (fundingShock : FundingShock) (debt : Option Debt) (asm : Assumptions)
  (pipeline : List PipelineItem) (stress : Stress)

lemma simStep_fst (t : Nat) :
    (simStep φ inputs overrides fundingShock debt asm pipeline stress t).1 =
      (t + 8 * 1831565813) % 4294967296 := by
  have h : (simStep φ inputs overrides fundingShock debt asm pipeline stress t).1 =
      (normalishNext φ (normalishNext φ (normalishNext φ (normalishNext φ t).1).1).1).1 := rfl
  rw [h, normalishNext_fst_closed, normalishNext_fst_closed, normalishNext_fst_closed,
    normalishNext_fst_closed]
  omega

lemma simStep_mod (t : Nat) :
    simStep φ inputs overrides fundingShock debt asm pipeline stress (t % 4294967296) =
      simStep φ inputs overrides fundingShock debt asm pipeline stress t := by
  unfold simStep
  rw [normalishNext_mod]

lemma runSims_length :
    ∀ (n t : Nat),
      (runSims φ inputs overrides fundingShock debt asm pipeline stress n t).length = n := by
  intro n
  induction n with
  | zero => intro t; simp [runSims]
  | succ n ih => intro t; simp [runSims, ih]

lemma runSims_get? :
    ∀ (n t i : Nat), i < n →
      (runSims φ inputs overrides fundingShock debt asm pipeline stress n t).get? i =
        some ((simStep φ inputs overrides fundingShock debt asm pipeline stress
          ((t + 8 * 1831565813 * i) % 4294967296)).2) := by
  intro n
  induction n with
  | zero => intro t i h; omega
  | succ n ih =>
    intro t i hi
    cases i with
    | zero =>
      simp only [runSims, List.get?_cons_zero]
      rw [show t + 8 * 1831565813 * 0 = t by ring,
        simStep_mod φ inputs overrides fundingShock debt asm pipeline stress t]
    | succ i =>
      simp only [runSims, List.get?_cons_succ]
      rw [ih _ i (by omega),
        simStep_fst φ inputs overrides fundingShock debt asm pipeline stress t]
      have harg : ((t + 8 * 1831565813) % 4294967296 + 8 * 1831565813 * i) % 4294967296 =
          (t + 8 * 1831565813 * (i + 1)) % 4294967296 := by
        omega
      rw [harg]

end StressLemmas

/-- C5: the stress test is deterministic — its summary is a function of the
seed, simulation count, the four sigmas and the scenario inputs alone —
and its draw accounting is fixed: each normal variate consumes exactly 2
uniform draws (the counter advances by exactly `2 × 0x6d2b79f5 mod 2^32`),
each simulation consumes exactly 8 draws in a fixed order, and simulation
`i` starts from the seeded stream's state after exactly `8·i` draws. -/
theorem c5 (φ : ℚ → ℚ → ℚ) (inputs : YearInputs) (overrides : List Override)
    (fundingShock : FundingShock) (debt : Option Debt) (asm : Assumptions)
    (pipeline : List PipelineItem) (s s' : Stress)
    (hseed : s.seed = s'.seed) (hsims : s.simulations = s'.simulations)
    (hinfl : s.inflationSigma = s'.inflationSigma)
    (hdem : s.demandSigma = s'.demandSigma) (hpay : s.paySigma = s'.paySigma)
    (hct : s.ctSigma = s'.ctSigma) :
    computeStressTest φ inputs overrides fundingShock debt asm pipeline s =
      computeStressTest φ inputs overrides fundingShock debt asm pipeline s' ∧
    (∀ t, (normalishNext φ t).1 = (t + 2 * 1831565813) % 4294967296) ∧
    (∀ t, (simStep φ inputs overrides fundingShock debt asm pipeline s t).1 =
      (t + 8 * 1831565813) % 4294967296) ∧
    (∀ n t i, i < n →
      (runSims φ inputs overrides fundingShock debt asm pipeline s n t).get? i =
        some ((simStep φ inputs overrides fundingShock debt asm pipeline s
          ((t + 8 * 1831565813 * i) % 4294967296)).2)) := by
  have hs : s = s' := by
    cases s; cases s'; simp_all
  subst hs
  exact ⟨rfl, normalishNext_fst_closed φ,
    simStep_fst φ inputs overrides fundingShock debt asm pipeline s,
    runSims_get? φ inputs overrides fundingShock debt asm pipeline s⟩

/-- The trivial normal-variate transform used to instantiate the
`φ`-parametrised stress theorems at concrete inputs. -/
def phiZero : ℚ → ℚ → ℚ := fun _ _ => 0

/-- A one-simulation stress configuration with seed 0 and zero sigmas. -/
def witnessStress : Stress := ⟨0, 1, 0, 0, 0, 0⟩

/-- Witness for C5 at a concrete scenario. -/
theorem c5_witness :
    computeStressTest phiZero zeroInputs [] offShock none zeroAssumptions [] witnessStress =
      computeStressTest phiZero zeroInputs [] offShock none zeroAssumptions []
        witnessStress ∧
    (simStep phiZero zeroInputs [] offShock none zeroAssumptions [] witnessStress 0).1 =
      (0 + 8 * 1831565813) % 4294967296 :=
  ⟨(c5 phiZero zeroInputs [] offShock none zeroAssumptions [] witnessStress witnessStress
      rfl rfl rfl rfl rfl rfl).1,
    (c5 phiZero zeroInputs [] offShock none zeroAssumptions [] witnessStress witnessStress
      rfl rfl rfl rfl rfl rfl).2.2.1 0⟩

lemma pick_eq_get (arr : List ℚ) (a : Nat) (hn : 0 < arr.length) :
    pick arr ((a : ℚ) / 10) = arr.get? (a * (arr.length - 1) / 10) := by
  unfold pick pickIndex
  have hcast : ((arr.length : ℚ) - 1) = ((arr.length - 1 : ℕ) : ℚ) := by
    rw [Nat.cast_sub hn, Nat.cast_one]
  have hprod : ((a : ℚ) / 10) * ((arr.length - 1 : ℕ) : ℚ) =
      ((a * (arr.length - 1) : ℕ) : ℚ) / ((10 : ℕ) : ℚ) := by
    push_cast
    ring
  rw [hcast, hprod]
  have hpos : (0 : ℚ) ≤ ((a * (arr.length - 1) : ℕ) : ℚ) / ((10 : ℕ) : ℚ) := by positivity
  have hfloor : Int.floor (((a * (arr.length - 1) : ℕ) : ℚ) / ((10 : ℕ) : ℚ)) =
      ((a * (arr.length - 1) / 10 : ℕ) : ℤ) := by
    rw [← Int.toNat_of_nonneg (Int.floor_nonneg.mpr hpos), Int.floor_toNat,
      Nat.floor_div_eq_div]
  rw [hfloor, if_neg (by exact not_lt.mpr (Int.natCast_nonneg _)), Int.toNat_natCast]

section PercentileLemmas

variable (φ : ℚ → ℚ → ℚ) (inputs : YearInputs) (overrides : List Override)
  (fundingShock : FundingShock) (debt : Option Debt) (asm : Assumptions)
  (pipeline : List PipelineItem) (stress : Stress)

lemma sortedGaps_length :
    (sortedGaps φ inputs overrides fundingShock debt asm pipeline stress).length =
      stress.simulations := by
  unfold sortedGaps
  rw [(List.perm_insertionSort _ _).length_eq, List.length_map,
    runSims_length]

lemma sortedReserves_length :
    (sortedReserves φ inputs overrides fundingShock debt asm pipeline stress).length =
      stress.simulations := by
  unfold sortedReserves
  rw [(List.perm_insertionSort _ _).length_eq, List.length_map,
    runSims_length]

end PercentileLemmas

/-- C6: the stress summary's six values are the nearest-rank percentile
reads at index `⌊p·(n−1)⌋` (`p ∈ {1/10, 1/2, 9/10}`, `n` the simulation
count, no interpolation) on the ascending-sorted result vectors: any
ascending-sorted permutation `sg` (resp. `sr`) of the raw year-1-gap
(resp. year-5-reserves) vector gives exactly the six summary values. -/
theorem c6 (φ : ℚ → ℚ → ℚ) (inputs : YearInputs) (overrides : List Override)
    (fundingShock : FundingShock) (debt : Option Debt) (asm : Assumptions)
    (pipeline : List PipelineItem) (stress : Stress) (hn : 0 < stress.simulations)
    (sg sr : List ℚ)
    (hgp : sg.Perm ((runSims φ inputs overrides fundingShock debt asm pipeline stress
        stress.simulations stress.seed).map Prod.fst))
    (hgs : sg.Sorted (· ≤ ·))
    (hrp : sr.Perm ((runSims φ inputs overrides fundingShock debt asm pipeline stress
        stress.simulations stress.seed).map Prod.snd))
    (hrs : sr.Sorted (· ≤ ·)) :
    computeStressTest φ inputs overrides fundingShock debt asm pipeline stress =
      { p10Gap := sg.get? ((stress.simulations - 1) / 10)
        p50Gap := sg.get? ((stress.simulations - 1) / 2)
        p90Gap := sg.get? (9 * (stress.simulations - 1) / 10)
        p10Reserves := sr.get? ((stress.simulations - 1) / 10)
        p50Reserves := sr.get? ((stress.simulations - 1) / 2)
        p90Reserves := sr.get? (9 * (stress.simulations - 1) / 10) } := by
  have hsg : sg = sortedGaps φ inputs overrides fundingShock debt asm pipeline stress :=
    List.eq_of_perm_of_sorted (hgp.trans (List.perm_insertionSort _ _).symm) hgs
      (List.sorted_insertionSort _ _)
  have hsr : sr = sortedReserves φ inputs overrides fundingShock debt asm pipeline stress :=
    List.eq_of_perm_of_sorted (hrp.trans (List.perm_insertionSort _ _).symm) hrs
      (List.sorted_insertionSort _ _)
  have hlg : (sortedGaps φ inputs overrides fundingShock debt asm pipeline stress).length =
      stress.simulations :=
    sortedGaps_length φ inputs overrides fundingShock debt asm pipeline stress
  have hlr :
      (sortedReserves φ inputs overrides fundingShock debt asm pipeline stress).length =
        stress.simulations :=
    sortedReserves_length φ inputs overrides fundingShock debt asm pipeline stress
  subst hsg hsr
  unfold computeStressTest
  have e10 : (1 : ℚ) / 10 = ((1 : ℕ) : ℚ) / 10 := by norm_num
  have e50 : (1 : ℚ) / 2 = ((5 : ℕ) : ℚ) / 10 := by norm_num
  have e90 : (9 : ℚ) / 10 = ((9 : ℕ) : ℚ) / 10 := by norm_num
  simp only [StressSummary.mk.injEq]
  refine ⟨?_, ?_, ?_, ?_, ?_, ?_⟩
  · rw [e10, pick_eq_get _ 1 (by rw [hlg]; exact hn), hlg, one_mul]
  · rw [e50, pick_eq_get _ 5 (by rw [hlg]; exact hn), hlg,
      show 5 * (stress.simulations - 1) / 10 = (stress.simulations - 1) / 2 by omega]
  · rw [e90, pick_eq_get _ 9 (by rw [hlg]; exact hn), hlg]
  · rw [e10, pick_eq_get _ 1 (by rw [hlr]; exact hn), hlr, one_mul]
  · rw [e50, pick_eq_get _ 5 (by rw [hlr]; exact hn), hlr,
      show 5 * (stress.simulations - 1) / 10 = (stress.simulations - 1) / 2 by omega]
  · rw [e90, pick_eq_get _ 9 (by rw [hlr]; exact hn), hlr]

/-- Witness for C6 at a concrete scenario (one simulation, seed 0). -/
theorem c6_witness :
    computeStressTest phiZero zeroInputs [] offShock none zeroAssumptions [] witnessStress =
      { p10Gap := (sortedGaps phiZero zeroInputs [] offShock none zeroAssumptions []
          witnessStress).get? ((witnessStress.simulations - 1) / 10)
        p50Gap := (sortedGaps phiZero zeroInputs [] offShock none zeroAssumptions []
          witnessStress).get? ((witnessStress.simulations - 1) / 2)
        p90Gap := (sortedGaps phiZero zeroInputs [] offShock none zeroAssumptions []
          witnessStress).get? (9 * (witnessStress.simulations - 1) / 10)
        p10Reserves := (sortedReserves phiZero zeroInputs [] offShock none zeroAssumptions []
          witnessStress).get? ((witnessStress.simulations - 1) / 10)
        p50Reserves := (sortedReserves phiZero zeroInputs [] offShock none zeroAssumptions []
          witnessStress).get? ((witnessStress.simulations - 1) / 2)
        p90Reserves := (sortedReserves phiZero zeroInputs [] offShock none zeroAssumptions []
          witnessStress).get? (9 * (witnessStress.simulations - 1) / 10) } :=
  c6 phiZero zeroInputs [] offShock none zeroAssumptions [] witnessStress (by decide)
    (sortedGaps phiZero zeroInputs [] offShock none zeroAssumptions [] witnessStress)
    (sortedReserves phiZero zeroInputs [] offShock none zeroAssumptions [] witnessStress)
    (by unfold sortedGaps; exact List.perm_insertionSort _ _)
    (by unfold sortedGaps; exact List.sorted_insertionSort _ _)
    (by unfold sortedReserves; exact List.perm_insertionSort _ _)
    (by unfold sortedReserves; exact List.sorted_insertionSort _ _)

/-- C9: with a zero simulation count the stress test still returns
normally, but the percentile read indexes position
`⌊p·(0−1)⌋ = −1` of the empty sorted vectors, so all six summary fields
are `undefined` (`none`); no error is raised. -/
theorem c9 (φ : ℚ → ℚ → ℚ) (inputs : YearInputs) (overrides : List Override)
    (fundingShock : FundingShock) (debt : Option Debt) (asm : Assumptions)
    (pipeline : List PipelineItem) (stress : Stress) (h : stress.simulations = 0) :
    computeStressTest φ inputs overrides fundingShock debt asm pipeline stress =
      ⟨none, none, none, none, none, none⟩ ∧
    pickIndex 0 (1 / 10) = -1 ∧ pickIndex 0 (1 / 2) = -1 ∧ pickIndex 0 (9 / 10) = -1 := by
  have hidx : ∀ p : ℚ, 0 < p → p ≤ 1 → pickIndex 0 p = -1 := by
    intro p hp hp1
    unfold pickIndex
    have he : p * (((0 : ℕ) : ℚ) - 1) = -p := by push_cast; ring
    rw [he, Int.floor_eq_iff]
    constructor
    · push_cast
      linarith
    · push_cast
      linarith
  refine ⟨?_, hidx _ (by norm_num) (by norm_num), hidx _ (by norm_num) (by norm_num),
    hidx _ (by norm_num) (by norm_num)⟩
  have hempty : runSims φ inputs overrides fundingShock debt asm pipeline stress
      stress.simulations stress.seed = [] := by
    rw [h]
    simp [runSims]
  have hpick : ∀ p : ℚ, 0 < p → p ≤ 1 → pick ([] : List ℚ) p = none := by
    intro p hp hp1
    unfold pick
    rw [show (([] : List ℚ)).length = 0 from rfl, hidx p hp hp1]
    simp
  unfold computeStressTest sortedGaps sortedReserves
  rw [hempty]
  simp only [List.map_nil]
  rw [show List.insertionSort (α := ℚ) (· ≤ ·) [] = [] from rfl,
    hpick _ (by norm_num) (by norm_num), hpick _ (by norm_num) (by norm_num),
    hpick _ (by norm_num) (by norm_num)]

/-- A zero-simulation stress configuration, used for the C9 witness. -/
def zeroSimStress : Stress := ⟨0, 0, 0, 0, 0, 0⟩

/-- Witness for C9 at a concrete scenario. -/
theorem c9_witness :
    computeStressTest phiZero zeroInputs [] offShock none zeroAssumptions [] zeroSimStress =
      ⟨none, none, none, none, none, none⟩ :=
  (c9 phiZero zeroInputs [] offShock none zeroAssumptions [] zeroSimStress rfl).1

/-- A dynamically-typed JavaScript value reaching `validateConfig`.
`ℚ` stands for the JavaScript number type (NaN, whose truthiness is
falsy like 0, is not distinguished). -/
inductive JValue where
  | null
  | undefined
  | bool (b : Bool)
  | num (q : ℚ)
  | str (s : String)
  | arr (elems : List JValue)
  | obj (fields : List (String × JValue))

/-- JavaScript truthiness: `false`, `0`, `""`, `null`, `undefined` are
falsy; objects and arrays are truthy. -/
def jsTruthy : JValue → Bool
  | .null => false
  | .undefined => false
  | .bool b => b
  | .num q => q != 0
  | .str s => s != ""
  | .arr _ => true
  | .obj _ => true

/-- JavaScript `typeof v === "object"`: true for records, arrays and
`null`. -/
def typeofObject : JValue → Bool
  | .null => true
  | .arr _ => true
  | .obj _ => true
  | _ => false

/-- Property access `data.key`: a record field lookup, `undefined` when
absent or when the receiver is not a record. -/
def getField : JValue → String → JValue
  | .obj fields, key =>
    (match fields.lookup key with
      | some v => v
      | none => .undefined)
  | _, _ => .undefined

/-- The `{valid: Bool}` result of `validateConfig`. -/
structure ValidResult where
  valid : Bool
deriving DecidableEq

/-- Source `validateConfig`: reject a falsy or non-object payload, then
reject a truthy non-object `assumptions` field, then a truthy non-object
`inputs` field; accept otherwise. -/
def validateConfig (data : JValue) : ValidResult :=
  if !jsTruthy data || !typeofObject data then ⟨false⟩
  else if jsTruthy (getField data "assumptions") &&
      !typeofObject (getField data "assumptions") then ⟨false⟩
  else if jsTruthy (getField data "inputs") &&
      !typeofObject (getField data "inputs") then ⟨false⟩
  else ⟨true⟩

/-- A structured record in the sense of the claim's words: a non-null
plain record, not a scalar and not an array. -/
def isPlainRecord : JValue → Bool
  | .obj _ => true
  | _ => false

/-- The claim's acceptance condition on the `assumptions`/`inputs` fields:
if present, the field must itself be a structured record. -/
def claimFieldOk (d : JValue) (key : String) : Bool :=
  match getField d key with
  | .undefined => true
  | v => isPlainRecord v

/-- Acceptance condition of `validateConfig` as the claim words it: the
payload is a structured record (not a scalar or array) and its
`assumptions` and `inputs` fields, if present, are structured records. -/
def claimedValid (d : JValue) : Bool :=
  isPlainRecord d && claimFieldOk d "assumptions" && claimFieldOk d "inputs"

/-- A record or an array (JavaScript non-null object values). -/
def isObjOrArr : JValue → Bool
  | .obj _ => true
  | .arr _ => true
  | _ => false

/-- Counterexample to C4 as stated: an array payload is not a structured
record, yet `validateConfig` accepts it (`typeof [] === "object"`). -/
theorem c4_cex :
    validateConfig (JValue.arr []) = ⟨true⟩ ∧ claimedValid (JValue.arr []) = false := by
  constructor
  · rfl
  · rfl

/-- C4 (amended): `validateConfig` returns `{valid: true}` exactly when
the payload is truthy and of object type — a record or an array — and
each of its `assumptions` and `inputs` fields is either falsy (absent,
`null`, `false`, `0` or `""`) or itself a record or array; `{valid:
false}` is the only failure signal and no deeper schema or range
validation is performed. -/
theorem c4_amended (d : JValue) :
    (validateConfig d).valid = true ↔
      (isObjOrArr d = true ∧
        (isObjOrArr (getField d "assumptions") = true ∨
          jsTruthy (getField d "assumptions") = false) ∧
        (isObjOrArr (getField d "inputs") = true ∨
          jsTruthy (getField d "inputs") = false)) := by
  have fieldCond : ∀ f : JValue,
      ((jsTruthy f && !typeofObject f) = false) ↔
        (isObjOrArr f = true ∨ jsTruthy f = false) := by
    intro f
    cases f <;> simp [jsTruthy, typeofObject, isObjOrArr]
  cases d with
  | null => simp [validateConfig, jsTruthy, typeofObject, isObjOrArr, getField]
  | undefined => simp [validateConfig, jsTruthy, typeofObject, isObjOrArr, getField]
  | bool b => simp [validateConfig, jsTruthy, typeofObject, isObjOrArr, getField]
  | num q => simp [validateConfig, jsTruthy, typeofObject, isObjOrArr, getField]
  | str s => simp [validateConfig, jsTruthy, typeofObject, isObjOrArr, getField]
  | arr xs => simp [validateConfig, jsTruthy, typeofObject, isObjOrArr, getField]
  | obj fields =>
    unfold validateConfig
    have h0 : ¬((!jsTruthy (JValue.obj fields) || !typeofObject (JValue.obj fields)) = true) := by
      simp [jsTruthy, typeofObject]
    rw [if_neg h0]
    by_cases ha : (jsTruthy (getField (JValue.obj fields) "assumptions") &&
        !typeofObject (getField (JValue.obj fields) "assumptions")) = true
    · have hnok : ¬(isObjOrArr (getField (JValue.obj fields) "assumptions") = true ∨
          jsTruthy (getField (JValue.obj fields) "assumptions") = false) := by
        rw [← fieldCond]
        simp [ha]
      rw [if_pos ha]
      exact ⟨fun hfalse => absurd hfalse (by simp), fun hconj => absurd hconj.2.1 hnok⟩
    · have ha' : (jsTruthy (getField (JValue.obj fields) "assumptions") &&
          !typeofObject (getField (JValue.obj fields) "assumptions")) = false :=
        Bool.eq_false_iff.mpr ha
      have hok := (fieldCond _).mp ha'
      rw [if_neg ha]
      by_cases hi : (jsTruthy (getField (JValue.obj fields) "inputs") &&
          !typeofObject (getField (JValue.obj fields) "inputs")) = true
      · have hnok : ¬(isObjOrArr (getField (JValue.obj fields) "inputs") = true ∨
            jsTruthy (getField (JValue.obj fields) "inputs") = false) := by
          rw [← fieldCond]
          simp [hi]
        rw [if_pos hi]
        exact ⟨fun hfalse => absurd hfalse (by simp), fun hconj => absurd hconj.2.2 hnok⟩
      · have hi' : (jsTruthy (getField (JValue.obj fields) "inputs") &&
            !typeofObject (getField (JValue.obj fields) "inputs")) = false :=
          Bool.eq_false_iff.mpr hi
        have hok2 := (fieldCond _).mp hi'
        rw [if_neg hi]
        exact ⟨fun _ => ⟨rfl, hok, hok2⟩, fun _ => rfl⟩

/-- A worksheet cell value of `buildXlsxBinary`: the source row arrays hold
numbers (emitted as raw numeric XML nodes) and strings (emitted as escaped
inline-string nodes). -/
inductive CellValue where
  | num (q : ℚ)
  | str (s : String)

/-- One logical sheet of the workbook: its name and its cell rows. -/
structure Sheet where
  name : String
  rows : List (List CellValue)

/-- Source `escapeXml`: escape `& < > " '` in order. -/
def escapeXml (value : String) : String :=
  ((((value.replace "&" "&amp;").replace "<" "&lt;").replace ">" "&gt;").replace
      "\"" "&quot;").replace (String.singleton (Char.ofNat 39)) "&apos;"

/-- The loop of the source `colLetter`: peel base-26 bijective digits of
`n` (A–Z, no zero digit) onto the front of `acc` until `n` reaches 0. -/
def colLetterAux (n : Nat) (acc : String) : String :=
  if _h : n = 0 then acc
  else colLetterAux ((n - 1) / 26) (String.singleton (Char.ofNat (65 + (n - 1) % 26)) ++ acc)
termination_by n
decreasing_by omega

/-- Source `colLetter`: 0-based column index to `A`, `B`, …, `Z`, `AA`, …. -/
def colLetter (index : Nat) : String :=
  colLetterAux (index + 1) ""

/-- One `<c>` cell node: numeric cells carry a raw `<v>` value, all other
cells an escaped inline string. -/
def cellXml (rowIndex colIndex : Nat) (value : CellValue) : String :=
  match value with
  | .num q =>
    "<c r=\"" ++ colLetter colIndex ++ toString (rowIndex + 1) ++ "\"><v>" ++ toString q ++
      "</v></c>"
  | .str s =>
    "<c r=\"" ++ colLetter colIndex ++ toString (rowIndex + 1) ++
      "\" t=\"inlineStr\"><is><t>" ++ escapeXml s ++ "</t></is></c>"

/-- Source `buildSheetXml`: one `<row>` node per sheet row with `A1`-style
cell references. -/
def buildSheetXml (sheetRows : List (List CellValue)) : String :=
  String.join (sheetRows.enum.map (fun rowPair =>
    "<row r=\"" ++ toString (rowPair.1 + 1) ++ "\">" ++
      String.join (rowPair.2.enum.map (fun cellPair =>
        cellXml rowPair.1 cellPair.1 cellPair.2)) ++
      "</row>"))

/-- The optional metadata argument of `buildXlsxBinary` (the source's
`meta`), with each dynamically-optional part made an explicit `Option`. -/
structure ExportMeta where
  scenario : Option String
  timestamp : Option String
  inputs : Option YearInputs
  assumptions : Option Assumptions
  fundingShock : Option FundingShock
  debt : Option Debt
  pipeline : Option (List PipelineItem)
  overrides : Option (List Override)
  governanceNotes : Option (List (Option String))
  stress : Option Stress

/-- Cell for `value ?? ""` on an optionally-present number: a numeric cell when
present, the empty inline string otherwise. -/
def optNumCell (v : Option ℚ) : CellValue :=
  match v with
  | some q => .num q
  | none => .str ""

/-- Cell for `value ?? ""` on an optionally-present integer field. -/
def optNatCell (v : Option Nat) : CellValue :=
  match v with
  | some n => .num (n : ℚ)
  | none => .str ""

/-- The Projections sheet rows: the CSV-style header then one row of the
five headline values per projection year. -/
def projectionSheetRows (rows : List Row) : List (List CellValue) :=
  [CellValue.str "Year", .str "Net Budget Requirement", .str "Total Funding",
    .str "Annual Gap", .str "Reserves End"] ::
    rows.map (fun r =>
      [CellValue.str r.year, .num r.netBudgetRequirement, .num r.totalFunding,
        .num r.annualGap, .num r.reservesEnd])

/-- The Scenario sheet (fixed label/value layout from the metadata). -/
def scenarioSheet (m : ExportMeta) : Sheet :=
  { name := "Scenario"
    rows :=
      [[CellValue.str "Scenario Summary"],
       [.str "Scenario", .str (m.scenario.getD "")],
       [.str "Generated", .str (m.timestamp.getD "")],
       [.str "Council Tax %", optNumCell (m.inputs.map YearInputs.councilTaxIncrease)],
       [.str "Pay Award %", optNumCell (m.inputs.map YearInputs.payAward)],
       [.str "Inflation %", optNumCell (m.inputs.map YearInputs.generalInflation)],
       [.str "Demand %", optNumCell (m.inputs.map YearInputs.socialCareGrowth)]] }

/-- The Assumptions sheet (core assumptions, funding shock, debt block). -/
def assumptionsSheet (m : ExportMeta) : Sheet :=
  { name := "Assumptions"
    rows :=
      [[CellValue.str "Core Assumptions"],
       [.str "Previous Year Base", optNumCell (m.assumptions.map Assumptions.previousYearBase)],
       [.str "Demand Pressures", optNumCell (m.assumptions.map Assumptions.demandPressures)],
       [.str "Planned Savings", optNumCell (m.assumptions.map Assumptions.plannedSavings)],
       [.str "Current Reserves", optNumCell (m.assumptions.map Assumptions.currentReserves)],
       [.str "Tax Base", optNumCell (m.assumptions.map Assumptions.taxBase)],
       [.str "Average Band D", optNumCell (m.assumptions.map Assumptions.averageBandD)],
       [.str "Business Rates", optNumCell (m.assumptions.map Assumptions.businessRates)],
       [.str "Revenue Support Grant",
         optNumCell (m.assumptions.map Assumptions.revenueSupportGrant)],
       [.str "Other Grants", optNumCell (m.assumptions.map Assumptions.otherGrants)],
       [],
       [.str "Funding Shock"],
       [.str "Enabled",
         .str (if (m.fundingShock.map FundingShock.enabled).getD false then "Yes" else "No")],
       [.str "Year Index", optNatCell (m.fundingShock.map FundingShock.yearIndex)],
       [.str "Amount", optNumCell (m.fundingShock.map FundingShock.amount)],
       [],
       [.str "Debt & Capital Financing"],
       [.str "Debt Principal", optNumCell (m.debt.map Debt.debtPrincipal)],
       [.str "Debt Interest Rate", optNumCell (m.debt.map Debt.debtInterestRate)],
       [.str "Annual Capital Financing",
         optNumCell (m.debt.map Debt.annualCapitalFinancing)]] }

/-- The Savings sheet: header rows then one row per pipeline item. -/
def savingsSheet (m : ExportMeta) : Sheet :=
  { name := "Savings"
    rows :=
      [CellValue.str "Savings Pipeline"] ::
        [CellValue.str "Name", .str "Amount", .str "Start Year", .str "Recurring",
          .str "Confidence"] ::
        (m.pipeline.getD []).map (fun item =>
          [CellValue.str item.name, .num item.amount, .num (item.startYear : ℚ),
            .str (if item.recurring then "Yes" else "No"), optNumCell item.confidence]) }

/-- The Overrides sheet: header rows then one row per projection year. -/
def overridesSheet (m : ExportMeta) : Sheet :=
  { name := "Overrides"
    rows :=
      [CellValue.str "Per-Year Overrides"] ::
        [CellValue.str "Year", .str "Enabled", .str "CT %", .str "Pay %", .str "Inflation %",
          .str "Demand %"] ::
        (m.overrides.getD []).enum.map (fun p =>
          [CellValue.str ("Y" ++ toString (p.1 + 1)),
            .str (if p.2.enabled then "Yes" else "No"),
            optNumCell p.2.councilTaxIncrease, optNumCell p.2.payAward,
            optNumCell p.2.generalInflation, optNumCell p.2.socialCareGrowth]) }

/-- The Governance sheet: one row per governance note. -/
def governanceSheet (m : ExportMeta) : Sheet :=
  { name := "Governance"
    rows :=
      [CellValue.str "Governance Notes"] ::
        (m.governanceNotes.getD []).enum.map (fun p =>
          [CellValue.str ("Y" ++ toString (p.1 + 1)), .str (p.2.getD "")]) }

/-- The Stress sheet: simulation count and seed. -/
def stressSheet (m : ExportMeta) : Sheet :=
  { name := "Stress"
    rows :=
      [[CellValue.str "Stress Test"],
       [.str "Simulations", optNatCell (m.stress.map Stress.simulations)],
       [.str "Seed", optNatCell (m.stress.map Stress.seed)]] }

/-- The sheet list built by `buildXlsxBinary`: Projections always, and the
six metadata sheets (in push order) exactly when metadata is supplied. -/
def sheetsOf (rows : List Row) (meta : Option ExportMeta) : List Sheet :=
  match meta with
  | none => [⟨"Projections", projectionSheetRows rows⟩]
  | some m =>
    [⟨"Projections", projectionSheetRows rows⟩, scenarioSheet m, assumptionsSheet m,
      savingsSheet m, overridesSheet m, governanceSheet m, stressSheet m]

/-- One worksheet XML part. -/
def sheetXmlOf (sheet : Sheet) : String :=
  "<?xml version=\"1.0\" encoding=\"UTF-8\" standalone=\"yes\"?>\n" ++
    "<worksheet xmlns=\"http://schemas.openxmlformats.org/spreadsheetml/2006/main\">" ++
    "<sheetData>" ++ buildSheetXml sheet.rows ++ "</sheetData></worksheet>"

/-- The workbook part: the sheet directory in declared order. -/
def workbookXmlOf (sheets : List Sheet) : String :=
  "<?xml version=\"1.0\" encoding=\"UTF-8\" standalone=\"yes\"?>\n" ++
    "<workbook xmlns=\"http://schemas.openxmlformats.org/spreadsheetml/2006/main\" " ++
    "xmlns:r=\"http://schemas.openxmlformats.org/officeDocument/2006/relationships\">" ++
    "<sheets>" ++
    String.join (sheets.enum.map (fun p =>
      "<sheet name=\"" ++ escapeXml p.2.name ++ "\" sheetId=\"" ++ toString (p.1 + 1) ++
        "\" r:id=\"rId" ++ toString (p.1 + 1) ++ "\"/>")) ++
    "</sheets></workbook>"

/-- The package-level relationships part (points at the workbook). -/
def relsXml : String :=
  "<?xml version=\"1.0\" encoding=\"UTF-8\" standalone=\"yes\"?>\n" ++
    "<Relationships xmlns=\"http://schemas.openxmlformats.org/package/2006/relationships\">" ++
    "<Relationship Id=\"rId1\" " ++
    "Type=\"http://schemas.openxmlformats.org/officeDocument/2006/relationships/officeDocument\" " ++
    "Target=\"xl/workbook.xml\"/>" ++
    "</Relationships>"

/-- The workbook-level relationships part: one worksheet relationship per
sheet in declared order. -/
def workbookRelsXmlOf (sheets : List Sheet) : String :=
  "<?xml version=\"1.0\" encoding=\"UTF-8\" standalone=\"yes\"?>\n" ++
    "<Relationships xmlns=\"http://schemas.openxmlformats.org/package/2006/relationships\">" ++
    String.join (sheets.enum.map (fun p =>
      "<Relationship Id=\"rId" ++ toString (p.1 + 1) ++ "\" " ++
        "Type=\"http://schemas.openxmlformats.org/officeDocument/2006/relationships/worksheet\" " ++
        "Target=\"worksheets/sheet" ++ toString (p.1 + 1) ++ ".xml\"/>")) ++
    "</Relationships>"

/-- The content-types manifest: defaults for `rels`/`xml` plus one
override per worksheet part. -/
def contentTypesXmlOf (sheets : List Sheet) : String :=
  "<?xml version=\"1.0\" encoding=\"UTF-8\" standalone=\"yes\"?>\n" ++
    "<Types xmlns=\"http://schemas.openxmlformats.org/package/2006/content-types\">" ++
    "<Default Extension=\"rels\" " ++
    "ContentType=\"application/vnd.openxmlformats-package.relationships+xml\"/>" ++
    "<Default Extension=\"xml\" ContentType=\"application/xml\"/>" ++
    "<Override PartName=\"/xl/workbook.xml\" " ++
    "ContentType=\"application/vnd.openxmlformats-officedocument.spreadsheetml.sheet.main+xml\"/>" ++
    String.join (sheets.enum.map (fun p =>
      "<Override PartName=\"/xl/worksheets/sheet" ++ toString (p.1 + 1) ++ ".xml\" " ++
        "ContentType=\"application/vnd.openxmlformats-officedocument.spreadsheetml.worksheet+xml\"/>")) ++
    "</Types>"

/-- Source `buildXlsxBinary`, modelled up to the zip packer: the ordered
list of named parts handed to `zipSync` (which packs entries in insertion
order) — the four fixed infrastructure parts, then one worksheet part per
sheet in declared order. -/
def buildXlsxBinary (rows : List Row) (meta : Option ExportMeta) : List (String × String) :=
  [("[Content_Types].xml", contentTypesXmlOf (sheetsOf rows meta)),
   ("_rels/.rels", relsXml),
   ("xl/workbook.xml", workbookXmlOf (sheetsOf rows meta)),
   ("xl/_rels/workbook.xml.rels", workbookRelsXmlOf (sheetsOf rows meta))] ++
    (sheetsOf rows meta).enum.map (fun p =>
      ("xl/worksheets/sheet" ++ toString (p.1 + 1) ++ ".xml", sheetXmlOf p.2))

/-- C8: the archive's part list is exactly the content-types manifest, the
root relationships part, the workbook part, the workbook relationships
part, and one worksheet part per sheet in declared order; the sheet list
is Projections alone without metadata, and Projections, Scenario,
Assumptions, Savings, Overrides, Governance, Stress with metadata. -/
theorem c8 (rows : List Row) (meta : Option ExportMeta) :
    (buildXlsxBinary rows meta).map Prod.fst =
      ["[Content_Types].xml", "_rels/.rels", "xl/workbook.xml",
        "xl/_rels/workbook.xml.rels"] ++
        (List.range (sheetsOf rows meta).length).map
          (fun i => "xl/worksheets/sheet" ++ toString (i + 1) ++ ".xml") ∧
    (sheetsOf rows none).map Sheet.name = ["Projections"] ∧
    ∀ m, (sheetsOf rows (some m)).map Sheet.name =
      ["Projections", "Scenario", "Assumptions", "Savings", "Overrides", "Governance",
        "Stress"] := by
  refine ⟨?_, rfl, fun m => rfl⟩
  unfold buildXlsxBinary
  rw [List.map_append]
  congr 1
  rw [List.map_map]
  have hcomp : (Prod.fst ∘ fun p : Nat × Sheet =>
      ("xl/worksheets/sheet" ++ toString (p.1 + 1) ++ ".xml", sheetXmlOf p.2)) =
      (fun i => "xl/worksheets/sheet" ++ toString (i + 1) ++ ".xml") ∘ Prod.fst := rfl
  rw [hcomp, ← List.map_map, List.enum_map_fst]

end MTFSBudget
